import Mathlib

/-!
# S32K116 cookbook: TRGMUX trigger chain and ADC calibration console

A shallow embedding of `S32K116_Project_TRGMUX/src/main.c` and of the calibration
dialogue of `S32K116_Project_ADC_Cal/src/main.c`.

Memory-mapped registers are 32-bit words held as natural numbers; a C statement
`reg = v` is `regWrite`, a C statement `reg |= mask` is `regOr` (one read followed by
one write).  Every write is logged, so that the order of writes can be stated.
-/

namespace S32K116

/-! ## Registers and their hardware behaviour -/

/-- The memory-mapped registers that the embedded code reads or writes.  `PTD_PDOR` is the
port D output data register, which the code only drives through `PTD_PSOR` / `PTD_PCOR`. -/
inductive Reg where
  | PCC_PORTA
  | PCC_PORTB
  | PCC_PORTD
  | PORTA_PCR (n : Nat)
  | PORTB_PCR (n : Nat)
  | PORTD_PCR (n : Nat)
  | PTD_PDOR
  | PTD_PSOR
  | PTD_PCOR
  | PTD_PDDR
  | WDOG_CNT
  | WDOG_TOVAL
  | WDOG_CS
  | NVIC_ISER (i : Nat)
  | NVIC_ICPR (i : Nat)
  | TRGMUX_LPUART0
  | TRGMUX_CMP0
  | CMP0_C0
  | LPIT0_MSR
  deriving DecidableEq, Repr

/-- A register file: the value currently held by each register. -/
abbrev Regs := Reg → Nat

/-- Constants that the sources take from `device_registers.h`.  The header is not among the
source files and the register model does not fix their values, so they are parameters. -/
structure DeviceHeader where
  PCC_PCCn_CGC_MASK : Nat
  PORT_PCR_MUX : Nat → Nat
  CMP_C0_CFR_MASK : Nat
  CMP_C0_CFF_MASK : Nat
  CMP0_IRQn : Nat
  LPIT0_IRQn : Nat
  WDOG_IRQn : Nat

/-- A concrete header, with the values of NXP's `S32K116.h` as far as the embedding needs
them.  It is used only to evaluate the model on concrete inputs; the general theorems hold
for every header. -/
def s32k116Header : DeviceHeader where
  PCC_PCCn_CGC_MASK := 0x40000000
  PORT_PCR_MUX := fun x => (x <<< 8) &&& 0x700
  CMP_C0_CFR_MASK := 0x4000000
  CMP_C0_CFF_MASK := 0x2000000
  CMP0_IRQn := 29
  LPIT0_IRQn := 20
  WDOG_IRQn := 22

/-- Header macro `LPIT_MSR_TIF0_MASK`: the timeout flag of channel 0 is bit 0 of `MSR`. -/
def LPIT_MSR_TIF0_MASK : Nat := 0x1

/-- The four write-one-to-clear timeout flags TIF0..TIF3 of `LPIT0->MSR` (bits 0..3). -/
def LPIT_MSR_TIF_ALL : Nat := 0xF

/-- Header macro `TRGMUX_TRGMUXn_LK_MASK`: the lock bit is bit 31 of a TRGMUX register. -/
def TRGMUX_TRGMUXn_LK_MASK : Nat := 0x80000000

/-- Header macro `TRGMUX_TRGMUXn_SEL0(x)`: the field SEL0 is the low 6 bits. -/
def TRGMUX_TRGMUXn_SEL0 (x : Nat) : Nat := (x <<< 0) &&& 0x3F

/-- Bitwise `a & ~b` on naturals: the bits of `a` that are not bits of `b`. -/
def clearBits (a b : Nat) : Nat := a ^^^ (a &&& b)

/-- Store a value in one register of the file. -/
def setReg (regs : Regs) (r : Reg) (v : Nat) : Regs :=
  fun r' => if r' = r then v else regs r'

/-- The value returned by a read.  `PSOR` and `PCOR` are write-only and read as zero. -/
def hwRead (regs : Regs) : Reg → Nat
  | .PTD_PSOR => 0
  | .PTD_PCOR => 0
  | r => regs r

/-- The effect of writing the 32-bit word `v` to register `r`.
* `PSOR` / `PCOR`: every written 1 sets / clears the matching bit of `PDOR`.
* `CMP0->C0`: the flags CFR and CFF are write-one-to-clear, the other bits are stored.
* `LPIT0->MSR`: the flags TIF0..TIF3 are write-one-to-clear, nothing else is stored.
* `TRGMUXn`: the write is ignored while the lock bit LK of the register is set.
* `ISER` / `ICPR`: every written 1 sets the enable bit / clears the pending bit. -/
def hwWrite (d : DeviceHeader) (regs : Regs) (r : Reg) (v : Nat) : Regs :=
  let w := v % 2 ^ 32
  match r with
  | .PTD_PSOR => setReg regs .PTD_PDOR (regs .PTD_PDOR ||| w)
  | .PTD_PCOR => setReg regs .PTD_PDOR (clearBits (regs .PTD_PDOR) w)
  | .CMP0_C0 =>
      let flags := d.CMP_C0_CFR_MASK ||| d.CMP_C0_CFF_MASK
      setReg regs .CMP0_C0 (clearBits w flags ||| clearBits (regs .CMP0_C0 &&& flags) w)
  | .LPIT0_MSR => setReg regs .LPIT0_MSR (clearBits (regs .LPIT0_MSR) (w &&& LPIT_MSR_TIF_ALL))
  | .TRGMUX_LPUART0 =>
      if regs .TRGMUX_LPUART0 &&& TRGMUX_TRGMUXn_LK_MASK = TRGMUX_TRGMUXn_LK_MASK then regs
      else setReg regs .TRGMUX_LPUART0 w
  | .TRGMUX_CMP0 =>
      if regs .TRGMUX_CMP0 &&& TRGMUX_TRGMUXn_LK_MASK = TRGMUX_TRGMUXn_LK_MASK then regs
      else setReg regs .TRGMUX_CMP0 w
  | .NVIC_ISER i => setReg regs (.NVIC_ISER i) (regs (.NVIC_ISER i) ||| w)
  | .NVIC_ICPR i => setReg regs (.NVIC_ICPR i) (clearBits (regs (.NVIC_ICPR i)) w)
  | r => setReg regs r w

/-! ## Execution with a log of writes -/

/-- What the code does that is visible from outside: a register write with the written word,
or a call of a function whose body is not among the source files. -/
inductive Event where
  | write (r : Reg) (v : Nat)
  | call (f : String) (args : List Nat)
  deriving DecidableEq, Repr

/-- The machine: the register file, the log of events so far (oldest first), and the
register file as it was after each individual write (oldest first). -/
structure Machine where
  regs : Regs
  trace : List Event
  snaps : List Regs

/-- A machine that starts in register file `regs` with an empty log. -/
def Machine.start (regs : Regs) : Machine := ⟨regs, [], []⟩

/-- The C statement `reg = v;`. -/
def regWrite (d : DeviceHeader) (r : Reg) (v : Nat) (m : Machine) : Machine :=
  let regs' := hwWrite d m.regs r v
  { regs := regs', trace := m.trace ++ [Event.write r (v % 2 ^ 32)], snaps := m.snaps ++ [regs'] }

/-- The C statement `reg |= mask;`: read the register, or the mask in, write the result. -/
def regOr (d : DeviceHeader) (r : Reg) (mask : Nat) (m : Machine) : Machine :=
  regWrite d r (hwRead m.regs r ||| mask) m

/-- A call of a function that is not among the source files: logged, and the register file
changes as that function (a parameter) says. -/
def callExt (f : String) (args : List Nat) (effect : Regs → Regs) (m : Machine) : Machine :=
  { m with regs := effect m.regs, trace := m.trace ++ [Event.call f args] }

/-! ## `S32K116_Project_TRGMUX/src/main.c` -/

namespace TRGMUX

/-- Pin numbers, as defined at the top of `main.c`. -/
def PTA0 : Nat := 0
def PTA4 : Nat := 4
def PTB0 : Nat := 0
def PTB1 : Nat := 1
def PTD15 : Nat := 15
def PTD16 : Nat := 16

/-- The functions `main` calls whose bodies are not among the source files (clock, LPUART,
ACMP and LPIT drivers), as their effect on the register file. -/
structure Drivers where
  SOSC_init_40MHz : Regs → Regs
  RUN_mode_48MHz : Regs → Regs
  LPUART0_init : Regs → Regs
  ACMP_init : Nat → Regs → Regs
  LPIT0_init : Nat → Regs → Regs

/-- The function `PORT_init`. -/
def PORT_init (d : DeviceHeader) (m : Machine) : Machine :=
  m
  |> regWrite d .PCC_PORTA d.PCC_PCCn_CGC_MASK
  |> regWrite d .PCC_PORTB d.PCC_PCCn_CGC_MASK
  |> regWrite d .PCC_PORTD d.PCC_PCCn_CGC_MASK
  |> regWrite d (.PORTA_PCR PTA0) (d.PORT_PCR_MUX 0)
  |> regWrite d (.PORTA_PCR PTA4) (d.PORT_PCR_MUX 4)
  |> regOr d (.PORTB_PCR PTB0) (d.PORT_PCR_MUX 2)
  |> regOr d (.PORTB_PCR PTB1) (d.PORT_PCR_MUX 2)
  |> regWrite d (.PORTD_PCR PTD16) (d.PORT_PCR_MUX 1)
  |> regWrite d (.PORTD_PCR PTD15) (d.PORT_PCR_MUX 1)
  |> regOr d .PTD_PDDR (1 <<< PTD16 ||| 1 <<< PTD15)
  |> regOr d .PTD_PSOR (1 <<< PTD16 ||| 1 <<< PTD15)

/-- The function `WDOG_disable`. -/
def WDOG_disable (d : DeviceHeader) (m : Machine) : Machine :=
  m
  |> regWrite d .WDOG_CNT 0xD928C520
  |> regWrite d .WDOG_TOVAL 0x0000FFFF
  |> regWrite d .WDOG_CS 0x00002100

/-- The function `Enable_Interrupt`; the argument is a `uint8_t`. -/
def Enable_Interrupt (d : DeviceHeader) (vector_number : Nat) (m : Machine) : Machine :=
  let vn := vector_number % 2 ^ 8
  m
  |> regWrite d (.NVIC_ISER (vn >>> 5)) ((1 <<< (vn &&& 0x1F)) % 2 ^ 32)
  |> regWrite d (.NVIC_ICPR (vn >>> 5)) ((1 <<< (vn &&& 0x1F)) % 2 ^ 32)

/-- The two statements of `main` that select CMP0_OUT (14) as the trigger source of LPUART0
and lock the register. -/
def main_select_LPUART0 (d : DeviceHeader) (m : Machine) : Machine :=
  m
  |> regOr d .TRGMUX_LPUART0 (TRGMUX_TRGMUXn_SEL0 14)
  |> regOr d .TRGMUX_LPUART0 TRGMUX_TRGMUXn_LK_MASK

/-- The two statements of `main` that select LPIT0_CH0 (17) as the trigger source of CMP0
and lock the register. -/
def main_select_CMP0 (d : DeviceHeader) (m : Machine) : Machine :=
  m
  |> regOr d .TRGMUX_CMP0 (TRGMUX_TRGMUXn_SEL0 17)
  |> regOr d .TRGMUX_CMP0 TRGMUX_TRGMUXn_LK_MASK

/-- The machine at the point of `main` where the LPUART0 link is about to be selected. -/
def beforeSelectLPUART0 (d : DeviceHeader) (x : Drivers) (regs : Regs) : Machine :=
  Machine.start regs
  |> WDOG_disable d
  |> callExt "SOSC_init_40MHz" [] x.SOSC_init_40MHz
  |> callExt "RUN_mode_48MHz" [] x.RUN_mode_48MHz
  |> PORT_init d
  |> callExt "LPUART0_init" [] x.LPUART0_init

/-- The body of `main` up to the infinite loop. -/
def main_setup (d : DeviceHeader) (x : Drivers) (m : Machine) : Machine :=
  m
  |> WDOG_disable d
  |> callExt "SOSC_init_40MHz" [] x.SOSC_init_40MHz
  |> callExt "RUN_mode_48MHz" [] x.RUN_mode_48MHz
  |> PORT_init d
  |> callExt "LPUART0_init" [] x.LPUART0_init
  |> main_select_LPUART0 d
  |> callExt "ACMP_init" [127] (x.ACMP_init 127)
  |> main_select_CMP0 d
  |> callExt "LPIT0_init" [32000000] (x.LPIT0_init 32000000)
  |> Enable_Interrupt d d.CMP0_IRQn
  |> Enable_Interrupt d d.LPIT0_IRQn

/-- The interrupt handler `LPIT0_IRQHandler`. -/
def LPIT0_IRQHandler (d : DeviceHeader) (m : Machine) : Machine :=
  if hwRead m.regs .LPIT0_MSR &&& LPIT_MSR_TIF0_MASK = LPIT_MSR_TIF0_MASK then
    m |> regOr d .LPIT0_MSR LPIT_MSR_TIF0_MASK
  else m

/-- The interrupt handler `CMP0_IRQHandler`. -/
def CMP0_IRQHandler (d : DeviceHeader) (m : Machine) : Machine :=
  if hwRead m.regs .CMP0_C0 &&& d.CMP_C0_CFR_MASK = d.CMP_C0_CFR_MASK then
    m
    |> regOr d .PTD_PSOR (1 <<< PTD16)
    |> regOr d .PTD_PCOR (1 <<< PTD15)
    |> regOr d .CMP0_C0 d.CMP_C0_CFR_MASK
  else if hwRead m.regs .CMP0_C0 &&& d.CMP_C0_CFF_MASK = d.CMP_C0_CFF_MASK then
    m
    |> regOr d .PTD_PSOR (1 <<< PTD15)
    |> regOr d .PTD_PCOR (1 <<< PTD16)
    |> regOr d .CMP0_C0 d.CMP_C0_CFF_MASK
  else m

/-- The hardware changes the content of a register by itself (a peripheral raises or drops
status flags); this is not a write of the program and is not logged. -/
def hwSet (r : Reg) (v : Nat) (m : Machine) : Machine :=
  { m with regs := setReg m.regs r v }

/-- A sequence of CMP0 interrupts: before each invocation of the handler the comparator has
left an arbitrary word (in particular arbitrary CFR / CFF flags) in `CMP0->C0`. -/
def cmp0Interrupts (d : DeviceHeader) : List Nat → Machine → Machine
  | [], m => m
  | c0 :: rest, m => cmp0Interrupts d rest (CMP0_IRQHandler d (hwSet .CMP0_C0 c0 m))

/-- Reset, then `PORT_init`, then a sequence of CMP0 interrupts. -/
def ledRun (d : DeviceHeader) (reset : Regs) (c0s : List Nat) : Machine :=
  cmp0Interrupts d c0s (PORT_init d (Machine.start reset))

/-- The green LED (PTD15, active low) is lit: the pin is an output and its data bit is 0. -/
def greenOn (regs : Regs) : Bool :=
  (regs .PTD_PDDR).testBit PTD15 && !(regs .PTD_PDOR).testBit PTD15

/-- The red LED (PTD16, active low) is lit: the pin is an output and its data bit is 0. -/
def redOn (regs : Regs) : Bool :=
  (regs .PTD_PDDR).testBit PTD16 && !(regs .PTD_PDOR).testBit PTD16

/-- At least one of the two LED data bits is 1, so at least one LED is dark. -/
def oneLedBitHigh (regs : Regs) : Prop :=
  (regs .PTD_PDOR).testBit 15 = true ∨ (regs .PTD_PDOR).testBit 16 = true

/-- The state after `main` has set the chip up and the first timer period has elapsed: the
timer has left `msr` in `LPIT0->MSR`, the comparator has left `c0` in `CMP0->C0`, and
both interrupt handlers have run. -/
def afterFirstEvaluation (d : DeviceHeader) (x : Drivers) (reset : Regs) (msr c0 : Nat) :
    Machine :=
  main_setup d x (Machine.start reset)
  |> hwSet .LPIT0_MSR msr
  |> hwSet .CMP0_C0 c0
  |> LPIT0_IRQHandler d
  |> CMP0_IRQHandler d

/-- The drivers leave the port D data and direction registers alone. -/
def Drivers.keepPortD (x : Drivers) : Prop :=
  ∀ (f : Regs → Regs),
    f ∈ [x.SOSC_init_40MHz, x.RUN_mode_48MHz, x.LPUART0_init, x.ACMP_init 127,
      x.LPIT0_init 32000000] →
    ∀ regs, f regs .PTD_PDOR = regs .PTD_PDOR ∧ f regs .PTD_PDDR = regs .PTD_PDDR

/-- The drivers leave the two TRGMUX registers alone. -/
def Drivers.keepTrgmux (x : Drivers) : Prop :=
  ∀ (f : Regs → Regs),
    f ∈ [x.SOSC_init_40MHz, x.RUN_mode_48MHz, x.LPUART0_init, x.ACMP_init 127,
      x.LPIT0_init 32000000] →
    ∀ regs, f regs .TRGMUX_LPUART0 = regs .TRGMUX_LPUART0 ∧
      f regs .TRGMUX_CMP0 = regs .TRGMUX_CMP0

/-- Drivers that do not touch the modelled registers at all. -/
def idleDrivers : Drivers := ⟨id, id, id, fun _ => id, fun _ => id⟩

/-- The register file at reset: every register reads zero. -/
def resetRegs : Regs := fun _ => 0

/-- An event is a write to one of the two TRGMUX registers. -/
def isTrgmuxWrite : Event → Bool
  | .write .TRGMUX_LPUART0 _ => true
  | .write .TRGMUX_CMP0 _ => true
  | _ => false

/-- The outcome of one transmission attempt. -/
inductive TransmitOutcome where
  | success
  | GateClosed
  deriving DecidableEq, Repr

/-- Modelled from the spec: `LPUART0_transmit_string` and the transmit gate in front of it
(the LPUART driver is not among the source files, and the gate is the hardware modulation of
the TXD pin by the trigger input).  Section 4.5: the attempt checks the gate, which mirrors
the comparator output level; if open the payload is transmitted and the attempt succeeds, if
closed it returns `GateClosed` and nothing is transmitted.  The result is the outcome together
with what went out on the line. -/
def LPUART0_transmit_string (gateOpen : Bool) (payload : String) :
    TransmitOutcome × Option String :=
  if gateOpen then (TransmitOutcome.success, some payload)
  else (TransmitOutcome.GateClosed, none)

/-- The status line that `main` sends. -/
def statusLine : String := "LPUART0_Tx triggered by CMP0_OUT\r\n"

/-- The infinite loop of `main`: one transmission attempt per iteration, unconditionally.
`levels` gives, for each iteration, the comparator output level last evaluated when that
iteration runs. -/
def main_loop (levels : List Bool) : List (TransmitOutcome × Option String) :=
  levels.map fun level => LPUART0_transmit_string level statusLine

/-- The function `main`: the setup followed by the infinite loop, of which as many iterations
are run as `levels` has entries.  The result is the machine after the setup and the outcomes
of the transmission attempts. -/
def main (d : DeviceHeader) (x : Drivers) (levels : List Bool) (m : Machine) :
    Machine × List (TransmitOutcome × Option String) :=
  (main_setup d x m, main_loop levels)

/-- Modelled from the spec: the `ComparatorState` of section 3.  The comparator is hardware;
its behaviour is not in the source files. -/
structure ComparatorState where
  threshold : Nat
  sample_enabled : Bool
  output_level : Bool
  rising_flag : Bool
  falling_flag : Bool
  deriving DecidableEq, Repr

/-- Modelled from the spec: `evaluate()` of section 4.3.  It has an effect only while
`sample_enabled`; then the output level becomes `input > threshold`, a change from false to
true sets the rising flag and a change from true to false sets the falling flag. -/
def ComparatorState.evaluate (c : ComparatorState) (input : Nat) : ComparatorState :=
  if c.sample_enabled then
    { c with
      output_level := decide (input > c.threshold)
      rising_flag := c.rising_flag || (!c.output_level && decide (input > c.threshold))
      falling_flag := c.falling_flag || (c.output_level && !decide (input > c.threshold)) }
  else c

/-- The trigger source a TRGMUX register selects: its field SEL0, the low 6 bits. -/
def trgmuxSource (r : Nat) : Nat := r &&& 0x3F

/-- Modelled from the spec: the state of the transmit gate (sections 3 and 4.5), which
mirrors the level of the trigger wired to the transmitter.  The trigger is the source that
`TRGMUX[LPUART0]` selects; source 14 is CMP0_OUT, the comparator output level (comment at
the select statement of `main`); the levels of the other sources are a parameter. -/
def gateOpen (regs : Regs) (cmp : ComparatorState) (others : Nat → Bool) : Bool :=
  if trgmuxSource (regs .TRGMUX_LPUART0) = 14 then cmp.output_level
  else others (trgmuxSource (regs .TRGMUX_LPUART0))

/-- What happens while the infinite loop of `main` runs: the timer expires, the comparator
evaluates an input, or the loop makes one more iteration. -/
inductive LoopEvent where
  | timeout
  | sample (input : Nat)
  | iteration
  deriving DecidableEq, Repr

/-- The comparator and the outcomes of the transmission attempts made so far. -/
structure GateRun where
  cmp : ComparatorState
  attempts : List (TransmitOutcome × Option String)

/-- One event.  A timeout arms the comparator when `TRGMUX[CMP0]` selects source 17,
LPIT0 channel 0 (section 4.2 of the spec and the comment at the select statement of `main`);
a sample is an evaluation of the comparator; an iteration is one pass of the loop of `main`,
with the gate as it is at that moment. -/
def GateRun.step (regs : Regs) (others : Nat → Bool) (s : GateRun) : LoopEvent → GateRun
  | .timeout =>
      if trgmuxSource (regs .TRGMUX_CMP0) = 17 then
        { s with cmp := { s.cmp with sample_enabled := true } }
      else s
  | .sample input => { s with cmp := s.cmp.evaluate input }
  | .iteration => { s with attempts := s.attempts ++ main_loop [gateOpen regs s.cmp others] }

/-- The run of `main` from reset: the setup, then the loop under a sequence of events, the
comparator starting in state `cmp0`. -/
def mainRun (d : DeviceHeader) (x : Drivers) (others : Nat → Bool) (cmp0 : ComparatorState)
    (events : List LoopEvent) : GateRun :=
  events.foldl (GateRun.step (main_setup d x (Machine.start resetRegs)).regs others)
    ⟨cmp0, []⟩

end TRGMUX

/-! ## `S32K116_Project_ADC_Cal/src/main.c`: the calibration dialogue -/

namespace ADC_Cal

/-- The calls the dialogue makes to functions outside `main.c`, and to `Enable_Interrupt`. -/
inductive Call where
  | LPUART0_transmit_string (s : String)
  | LPUART0_int_to_char (n : Nat)
  | ADC_calibration_init (gain offset : Nat)
  | ADC_init
  | ADC_channel_convert (ch : Nat)
  | ADC_conversion_complete
  | ADC_channel_read
  | WDOG_init
  | Enable_Interrupt (vector_number : Nat)
  deriving DecidableEq, Repr

/-- The global variables of `main.c` and the log of calls made so far (oldest first). -/
structure Console where
  answer : Nat
  gain : Nat
  offset : Nat
  adc_mV_result : Nat
  state : Nat
  out : List Call

/-- The globals as initialised: all zero, nothing called yet. -/
def Console.init : Console := ⟨0, 0, 0, 0, 0, []⟩

/-- Append calls to the log. -/
def Console.emit (c : Console) (calls : List Call) : Console :=
  { c with out := c.out ++ calls }

/-- The gain step: the body of `while (state == 1)` from the call of `LPUART0_receive_int`,
which returns `rx`, up to the next receive call. -/
def gainStep (c : Console) (rx : Nat) : Console :=
  let c := { c with gain := rx % 2 ^ 16 }
  if decide (c.gain ≥ 0) && decide (c.gain ≤ 1023) then
    { c with state := 2 }.emit
      [.LPUART0_transmit_string
          "ADC module calibration. Which Offset value would you like to set?\r\n\r\n",
        .LPUART0_transmit_string "> "]
  else
    c.emit
      [.LPUART0_transmit_string "\r\n",
        .LPUART0_transmit_string "Incorrect Gain Value. Try again.\r\n\r\n",
        .LPUART0_transmit_string "> "]

/-- The offset step: the body of `while (state == 2)` from the call of
`LPUART0_receive_int`, which returns `rx`, up to the next receive call.  `adc` is the value
that `ADC_channel_read` returns and `wdogIrq` the header constant `WDOG_IRQn`; the wait for
the conversion-complete flag is taken to end. -/
def offsetStep (wdogIrq adc : Nat) (c : Console) (rx : Nat) : Console :=
  let c := { c with offset := rx % 2 ^ 16 }
  if decide (c.offset ≥ 0) && decide (c.offset ≤ 255) then
    let c := { c with state := 0 }
    let c := c.emit
      [.ADC_calibration_init c.gain c.offset, .ADC_channel_convert 3,
        .ADC_conversion_complete, .ADC_channel_read]
    let c := { c with adc_mV_result := adc % 2 ^ 32 }
    c.emit
      [.LPUART0_transmit_string "ADC result with calibration is: ",
        .LPUART0_int_to_char c.adc_mV_result,
        .LPUART0_transmit_string " mV with UG = ",
        .LPUART0_int_to_char c.gain,
        .LPUART0_transmit_string " and USR_OFS = ",
        .LPUART0_int_to_char c.offset,
        .LPUART0_transmit_string "\r\n\r\n",
        .WDOG_init,
        .Enable_Interrupt wdogIrq]
  else
    c.emit
      [.LPUART0_transmit_string "\r\n",
        .LPUART0_transmit_string "Incorrect Offset Value. Try again.\r\n\r\n",
        .LPUART0_transmit_string "> "]

/-- The answer step: the body of the outer `for(;;)` from the call of
`LPUART0_receive_char`, which returns `rx`, up to the next receive call.  As in the offset
step, the wait for the conversion-complete flag is taken to end and is logged as one call
of `ADC_conversion_complete`, however many times the flag is polled. -/
def answerStep (wdogIrq adc : Nat) (c : Console) (rx : Nat) : Console :=
  let c := { c with answer := rx % 2 ^ 16 }
  if c.answer = 'y'.toNat then
    { c with state := 1 }.emit
      [.LPUART0_transmit_string "\r\n\r\n",
        .LPUART0_transmit_string
          "ADC module calibration. Which Gain value would you like to set? \r\n\r\n",
        .LPUART0_transmit_string "> "]
  else if c.answer = 'n'.toNat then
    let c := c.emit
      [.ADC_init, .ADC_channel_convert 3, .ADC_conversion_complete, .ADC_channel_read]
    let c := { c with adc_mV_result := adc % 2 ^ 32 }
    c.emit
      [.LPUART0_transmit_string "\r\n\r\n",
        .LPUART0_transmit_string "ADC result without calibration is: ",
        .LPUART0_int_to_char c.adc_mV_result,
        .LPUART0_transmit_string " mV\r\n\r\n",
        .WDOG_init,
        .Enable_Interrupt wdogIrq]
  else
    c.emit
      [.LPUART0_transmit_string "\r\n\r\n",
        .LPUART0_transmit_string "Incorrect input. Try again.\r\n\r\n",
        .LPUART0_transmit_string "> "]

/-- One received value.  The receive call that is waiting is the one inside
`while (state == 1)` when `state` is 1, the one inside `while (state == 2)` when `state` is
2, and the one at the top of the `for(;;)` otherwise. -/
def step (wdogIrq adc : Nat) (c : Console) (rx : Nat) : Console :=
  if c.state = 1 then gainStep c rx
  else if c.state = 2 then offsetStep wdogIrq adc c rx
  else answerStep wdogIrq adc c rx

/-- The dialogue of `main` on a sequence of received values, from the initial globals. -/
def dialogue (wdogIrq adc : Nat) (rxs : List Nat) : Console :=
  rxs.foldl (step wdogIrq adc) Console.init

/-- The function `Enable_Interrupt` of the ADC_Cal project; the argument is a `uint8_t`. -/
def Enable_Interrupt (d : DeviceHeader) (vector_number : Nat) (m : Machine) : Machine :=
  let vn := vector_number % 2 ^ 8
  m
  |> regWrite d (.NVIC_ISER (vn >>> 5)) ((1 <<< (vn &&& 0x1F)) % 2 ^ 32)
  |> regWrite d (.NVIC_ICPR (vn >>> 5)) ((1 <<< (vn &&& 0x1F)) % 2 ^ 32)

/-- What the dialogue guarantees at every receive call: while the offset is awaited the
stored gain is valid, and every calibration call made so far had valid arguments. -/
def Console.ok (c : Console) : Prop :=
  (c.state = 2 → c.gain ≤ 1023) ∧
    ∀ g o, Call.ADC_calibration_init g o ∈ c.out → g ≤ 1023 ∧ o ≤ 255

end ADC_Cal

/-! ## Bit-level lemmas -/

theorem testBit_clearBits (a b i : Nat) :
    (clearBits a b).testBit i = (a.testBit i && !b.testBit i) := by
  unfold clearBits
  rw [Nat.testBit_xor, Nat.testBit_and]
  cases a.testBit i <;> cases b.testBit i <;> rfl

theorem testBit_bit15 (i : Nat) : Nat.testBit 32768 i = decide (i = 15) := by
  rw [show (32768 : Nat) = 2 ^ 15 by norm_num, Nat.testBit_two_pow]
  simp [eq_comm]

theorem testBit_bit16 (i : Nat) : Nat.testBit 65536 i = decide (i = 16) := by
  rw [show (65536 : Nat) = 2 ^ 16 by norm_num, Nat.testBit_two_pow]
  simp [eq_comm]

theorem testBit_leds (i : Nat) :
    Nat.testBit 98304 i = (decide (i = 15) || decide (i = 16)) := by
  rw [show (98304 : Nat) = 32768 ||| 65536 by decide, Nat.testBit_or, testBit_bit15,
    testBit_bit16]

theorem and_one_eq_one_iff (a : Nat) : a &&& 1 = 1 ↔ a.testBit 0 = true := by
  rw [Nat.and_one_is_mod, Nat.testBit_zero]
  simp

theorem testBit_mod32 (x i : Nat) :
    (x % 4294967296).testBit i = (decide (i < 32) && x.testBit i) := by
  rw [show (4294967296 : Nat) = 2 ^ 32 by norm_num, Nat.testBit_mod_two_pow]

theorem msr_bit0_cleared (a : Nat) :
    (clearBits a ((a ||| 1) % 2 ^ 32 &&& 15)).testBit 0 = false := by
  rw [testBit_clearBits, Nat.testBit_and, Nat.testBit_mod_two_pow, Nat.testBit_or]
  have h1 : Nat.testBit 1 0 = true := by decide
  have h15 : Nat.testBit 15 0 = true := by decide
  simp [h1, h15]

/-! ## Writes: log and frame lemmas -/

theorem regWrite_trace (d : DeviceHeader) (r : Reg) (v : Nat) (m : Machine) :
    (regWrite d r v m).trace = m.trace ++ [Event.write r (v % 2 ^ 32)] := rfl

theorem regOr_trace (d : DeviceHeader) (r : Reg) (k : Nat) (m : Machine) :
    (regOr d r k m).trace = m.trace ++ [Event.write r ((hwRead m.regs r ||| k) % 2 ^ 32)] := rfl

theorem callExt_trace (f : String) (args : List Nat) (g : Regs → Regs) (m : Machine) :
    (callExt f args g m).trace = m.trace ++ [Event.call f args] := rfl

theorem callExt_regs (f : String) (args : List Nat) (g : Regs → Regs) (m : Machine) :
    (callExt f args g m).regs = g m.regs := rfl

theorem regWrite_frame (d : DeviceHeader) (r : Reg) (v : Nat) (m : Machine) (q : Reg)
    (h : q ≠ r) (h2 : q ≠ .PTD_PDOR) : (regWrite d r v m).regs q = m.regs q := by
  cases r <;> simp [regWrite, hwWrite, setReg, h, h2] <;> split <;> simp [setReg, h]

theorem regOr_frame (d : DeviceHeader) (r : Reg) (k : Nat) (m : Machine) (q : Reg)
    (h : q ≠ r) (h2 : q ≠ .PTD_PDOR) : (regOr d r k m).regs q = m.regs q :=
  regWrite_frame d r _ m q h h2

theorem regWrite_frame_PDOR (d : DeviceHeader) (r : Reg) (v : Nat) (m : Machine)
    (h : r ≠ .PTD_PDOR) (h1 : r ≠ .PTD_PSOR) (h2 : r ≠ .PTD_PCOR) :
    (regWrite d r v m).regs .PTD_PDOR = m.regs .PTD_PDOR := by
  cases r <;> simp [regWrite, hwWrite, setReg] at h h1 h2 ⊢ <;> split <;> simp [setReg]

theorem regOr_frame_PDOR (d : DeviceHeader) (r : Reg) (k : Nat) (m : Machine)
    (h : r ≠ .PTD_PDOR) (h1 : r ≠ .PTD_PSOR) (h2 : r ≠ .PTD_PCOR) :
    (regOr d r k m).regs .PTD_PDOR = m.regs .PTD_PDOR :=
  regWrite_frame_PDOR d r _ m h h1 h2

/-! ## The indicator LEDs -/

namespace TRGMUX

theorem not_bothOn_of_oneLedBitHigh {regs : Regs} (h : oneLedBitHigh regs) :
    ¬ (greenOn regs = true ∧ redOn regs = true) := by
  unfold oneLedBitHigh at h
  simp only [greenOn, redOn, PTD15, PTD16, Bool.and_eq_true, Bool.not_eq_true']
  rintro ⟨⟨-, h15⟩, ⟨-, h16⟩⟩
  rcases h with h | h
  · rw [h] at h15; cases h15
  · rw [h] at h16; cases h16

/-- Every register file observed after a write of `CMP0_IRQHandler` has an LED data bit high:
the handler first sets the bit of the LED it turns off, then clears the other one. -/
theorem CMP0_IRQHandler_snaps (d : DeviceHeader) (m : Machine) :
    ∃ l, (CMP0_IRQHandler d m).snaps = m.snaps ++ l ∧ ∀ s ∈ l, oneLedBitHigh s := by
  unfold CMP0_IRQHandler
  split
  · refine ⟨?l, ?eq, ?good⟩
    case eq =>
      simp only [regOr, regWrite, List.append_assoc, List.singleton_append]
      exact rfl
    case good =>
      intro s hs
      simp only [List.mem_cons, List.mem_singleton, List.not_mem_nil, or_false,
        List.mem_append] at hs
      rcases hs with (rfl | rfl) | rfl <;>
        simp [oneLedBitHigh, hwRead, hwWrite, setReg, PTD15, PTD16, testBit_clearBits,
          Nat.testBit_or, testBit_bit15, testBit_bit16]
  · split
    · refine ⟨?l2, ?eq2, ?good2⟩
      case eq2 =>
        simp only [regOr, regWrite, List.append_assoc, List.singleton_append]
        exact rfl
      case good2 =>
        intro s hs
        simp only [List.mem_cons, List.mem_singleton, List.not_mem_nil, or_false,
          List.mem_append] at hs
        rcases hs with (rfl | rfl) | rfl <;>
          simp [oneLedBitHigh, hwRead, hwWrite, setReg, PTD15, PTD16, testBit_clearBits,
            Nat.testBit_or, testBit_bit15, testBit_bit16]
    · exact ⟨[], by simp, by simp⟩

theorem cmp0Interrupts_snaps (d : DeviceHeader) (c0s : List Nat) (m : Machine) :
    ∃ l, (cmp0Interrupts d c0s m).snaps = m.snaps ++ l ∧ ∀ s ∈ l, oneLedBitHigh s := by
  induction c0s generalizing m with
  | nil => exact ⟨[], by simp [cmp0Interrupts], by simp⟩
  | cons c0 rest ih =>
    obtain ⟨l₁, h₁, g₁⟩ := CMP0_IRQHandler_snaps d (hwSet .CMP0_C0 c0 m)
    obtain ⟨l₂, h₂, g₂⟩ := ih (CMP0_IRQHandler d (hwSet .CMP0_C0 c0 m))
    refine ⟨l₁ ++ l₂, ?_, ?_⟩
    · rw [cmp0Interrupts, h₂, h₁]
      simp [hwSet]
    · intro s hs
      rcases List.mem_append.mp hs with h | h
      · exact g₁ s h
      · exact g₂ s h

/-- The eleven register files observed during `PORT_init`: nine in which the direction
register is still as at entry, the one after the direction write, and the final one, in which
`PSOR` has set both LED data bits. -/
theorem PORT_init_snaps (d : DeviceHeader) (reset : Regs) :
    ∃ l g e, (PORT_init d (Machine.start reset)).snaps = l ++ [g, e] ∧ l.length = 9 ∧
      (∀ s ∈ l, s .PTD_PDDR = reset .PTD_PDDR) ∧ oneLedBitHigh e := by
  refine ⟨[?_, ?_, ?_, ?_, ?_, ?_, ?_, ?_, ?_], ?g, ?e, ?eq, rfl, ?dir, ?last⟩
  case eq =>
    simp only [PORT_init, regOr, regWrite, Machine.start, List.append_assoc,
      List.singleton_append, List.nil_append, List.cons_append]
    exact rfl
  case dir =>
    intro s hs
    simp only [List.mem_cons, List.mem_singleton, List.not_mem_nil, or_false] at hs
    rcases hs with rfl | rfl | rfl | rfl | rfl | rfl | rfl | rfl | rfl <;>
      simp [hwRead, hwWrite, setReg, PTD15, PTD16, PTA0, PTA4, PTB0, PTB1]
  case last =>
    simp [oneLedBitHigh, hwRead, hwWrite, setReg, PTD15, PTD16, PTA0, PTA4, PTB0, PTB1,
      Nat.testBit_or, testBit_leds]

/-- C1 as stated fails: from reset, the register file observed right after the tenth write
of `PORT_init` (the write of the direction register `PDDR`) has both pins as outputs with
data bit 0, so the green LED and the red LED are both on. -/
theorem ledRun_both_on_after_direction_write :
    ∃ s, (ledRun s32k116Header resetRegs []).snaps[9]? = some s ∧
      greenOn s = true ∧ redOn s = true :=
  ⟨_, rfl, by decide, by decide⟩

/-- C1 (amended): from reset (port D data and direction registers zero), through `PORT_init`
and any sequence of `CMP0_IRQHandler` invocations with arbitrary flags, in every register
file observed after an individual write, other than the one observed right after the
direction write of `PORT_init` (index 9), the green and the red LED are not both on. -/
theorem ledRun_exclusive (d : DeviceHeader) (reset : Regs) (c0s : List Nat)
    (_hData : reset .PTD_PDOR = 0) (hDir : reset .PTD_PDDR = 0) :
    ∀ s ∈ (ledRun d reset c0s).snaps.eraseIdx 9, ¬ (greenOn s = true ∧ redOn s = true) := by
  obtain ⟨l, g, e, hl, hlen, hdir, he⟩ := PORT_init_snaps d reset
  obtain ⟨l₂, h₂, g₂⟩ := cmp0Interrupts_snaps d c0s (PORT_init d (Machine.start reset))
  have hs : (ledRun d reset c0s).snaps.eraseIdx 9 = l ++ (e :: l₂) := by
    rw [ledRun, h₂, hl, List.append_assoc, List.eraseIdx_append_of_length_le (by omega), hlen]
    rfl
  rw [hs]
  intro s hmem
  rcases List.mem_append.mp hmem with h | h
  · have := hdir s h
    simp [greenOn, this, hDir]
  · rcases List.mem_cons.mp h with rfl | h
    · exact not_bothOn_of_oneLedBitHigh he
    · exact not_bothOn_of_oneLedBitHigh (g₂ s h)

/-- Witness for `ledRun_exclusive`: reset, then a rising and a falling edge interrupt. -/
theorem ledRun_exclusive_witness :
    (resetRegs .PTD_PDOR = 0 ∧ resetRegs .PTD_PDDR = 0) ∧
      ∀ s ∈ (ledRun s32k116Header resetRegs [0x4000000, 0x2000000]).snaps.eraseIdx 9,
        ¬ (greenOn s = true ∧ redOn s = true) :=
  ⟨⟨rfl, rfl⟩, ledRun_exclusive s32k116Header resetRegs [0x4000000, 0x2000000] rfl rfl⟩

/-- C2: `CMP0_IRQHandler`, entered with CFR set, ends with PTD15 = 0 (green on) and
PTD16 = 1 (red off); entered with CFR clear and CFF set, it ends with PTD16 = 0 (red on) and
PTD15 = 1 (green off); in both cases every other bit of the port D data register and the
direction register are unchanged; entered with neither flag set, it changes nothing. -/
theorem CMP0_IRQHandler_postcondition (d : DeviceHeader) (m : Machine) :
    (m.regs .CMP0_C0 &&& d.CMP_C0_CFR_MASK = d.CMP_C0_CFR_MASK →
      ((CMP0_IRQHandler d m).regs .PTD_PDOR).testBit PTD15 = false ∧
      ((CMP0_IRQHandler d m).regs .PTD_PDOR).testBit PTD16 = true ∧
      (∀ i, i ≠ PTD15 → i ≠ PTD16 →
        ((CMP0_IRQHandler d m).regs .PTD_PDOR).testBit i = (m.regs .PTD_PDOR).testBit i) ∧
      (CMP0_IRQHandler d m).regs .PTD_PDDR = m.regs .PTD_PDDR) ∧
    (¬ m.regs .CMP0_C0 &&& d.CMP_C0_CFR_MASK = d.CMP_C0_CFR_MASK →
      m.regs .CMP0_C0 &&& d.CMP_C0_CFF_MASK = d.CMP_C0_CFF_MASK →
      ((CMP0_IRQHandler d m).regs .PTD_PDOR).testBit PTD16 = false ∧
      ((CMP0_IRQHandler d m).regs .PTD_PDOR).testBit PTD15 = true ∧
      (∀ i, i ≠ PTD15 → i ≠ PTD16 →
        ((CMP0_IRQHandler d m).regs .PTD_PDOR).testBit i = (m.regs .PTD_PDOR).testBit i) ∧
      (CMP0_IRQHandler d m).regs .PTD_PDDR = m.regs .PTD_PDDR) ∧
    (¬ m.regs .CMP0_C0 &&& d.CMP_C0_CFR_MASK = d.CMP_C0_CFR_MASK →
      ¬ m.regs .CMP0_C0 &&& d.CMP_C0_CFF_MASK = d.CMP_C0_CFF_MASK →
      CMP0_IRQHandler d m = m) := by
  refine ⟨fun h => ?_, fun h h2 => ?_, fun h h2 => ?_⟩
  · have hp : (CMP0_IRQHandler d m).regs .PTD_PDOR
        = clearBits (m.regs .PTD_PDOR ||| 65536) 32768 := by
      simp [CMP0_IRQHandler, hwRead, h, regOr, regWrite, hwWrite, setReg, PTD15, PTD16]
    have hd : (CMP0_IRQHandler d m).regs .PTD_PDDR = m.regs .PTD_PDDR := by
      simp [CMP0_IRQHandler, hwRead, h, regOr, regWrite, hwWrite, setReg]
    rw [hp]
    refine ⟨?_, ?_, fun i h15 h16 => ?_, hd⟩ <;>
      simp_all [PTD15, PTD16, testBit_clearBits, Nat.testBit_or, testBit_bit15, testBit_bit16]
  · have hp : (CMP0_IRQHandler d m).regs .PTD_PDOR
        = clearBits (m.regs .PTD_PDOR ||| 32768) 65536 := by
      simp [CMP0_IRQHandler, hwRead, h, h2, regOr, regWrite, hwWrite, setReg, PTD15, PTD16]
    have hd : (CMP0_IRQHandler d m).regs .PTD_PDDR = m.regs .PTD_PDDR := by
      simp [CMP0_IRQHandler, hwRead, h, h2, regOr, regWrite, hwWrite, setReg]
    rw [hp]
    refine ⟨?_, ?_, fun i h15 h16 => ?_, hd⟩ <;>
      simp_all [PTD15, PTD16, testBit_clearBits, Nat.testBit_or, testBit_bit15, testBit_bit16]
  · simp [CMP0_IRQHandler, hwRead, h, h2]

/-- Witness for `CMP0_IRQHandler_postcondition`: entered with only CFR set, the handler
ends with PTD15 = 0 and PTD16 = 1. -/
theorem CMP0_IRQHandler_postcondition_witness :
    (setReg resetRegs .CMP0_C0 0x4000000 .CMP0_C0 &&& s32k116Header.CMP_C0_CFR_MASK
        = s32k116Header.CMP_C0_CFR_MASK) ∧
      ((CMP0_IRQHandler s32k116Header
          (Machine.start (setReg resetRegs .CMP0_C0 0x4000000))).regs .PTD_PDOR).testBit PTD15
        = false ∧
      ((CMP0_IRQHandler s32k116Header
          (Machine.start (setReg resetRegs .CMP0_C0 0x4000000))).regs .PTD_PDOR).testBit PTD16
        = true :=
  ⟨by decide,
    ((CMP0_IRQHandler_postcondition s32k116Header
      (Machine.start (setReg resetRegs .CMP0_C0 0x4000000))).1 (by decide)).1,
    ((CMP0_IRQHandler_postcondition s32k116Header
      (Machine.start (setReg resetRegs .CMP0_C0 0x4000000))).1 (by decide)).2.1⟩

/-! ## The transmit gate -/

/-- The loop body on a given list of gate levels: the attempt of an iteration succeeds if
and only if the level at that iteration is true, and there is one outcome per iteration. -/
theorem main_loop_gate_fidelity (levels : List Bool) (i : Nat) :
    ((main_loop levels)[i]? = some (TransmitOutcome.success, some statusLine) ↔
        levels[i]? = some true) ∧
      (levels[i]? = some false →
        (main_loop levels)[i]? = some (TransmitOutcome.GateClosed, none)) ∧
      (main_loop levels).length = levels.length := by
  simp only [main_loop, List.getElem?_map, List.length_map, and_true]
  cases h : levels[i]? with
  | none => simp
  | some b => cases b <;> simp [LPUART0_transmit_string]

/-- Witness for `main_loop_gate_fidelity`: with levels false, true, false the second attempt
succeeds and the third returns `GateClosed`. -/
theorem main_loop_gate_fidelity_witness :
    [false, true, false][2]? = some false ∧
      (main_loop [false, true, false])[2]? = some (TransmitOutcome.GateClosed, none) ∧
      (main_loop [false, true, false])[1]? = some (TransmitOutcome.success, some statusLine) :=
  ⟨rfl, (main_loop_gate_fidelity [false, true, false] 2).2.1 rfl,
    (main_loop_gate_fidelity [false, true, false] 1).1.mpr rfl⟩

/-! ## The TRGMUX links -/

theorem WDOG_disable_trgmux (d : DeviceHeader) (m : Machine) :
    (WDOG_disable d m).trace.filter isTrgmuxWrite = m.trace.filter isTrgmuxWrite := by
  simp [WDOG_disable, regWrite_trace, List.filter_append, isTrgmuxWrite]

theorem PORT_init_trgmux (d : DeviceHeader) (m : Machine) :
    (PORT_init d m).trace.filter isTrgmuxWrite = m.trace.filter isTrgmuxWrite := by
  simp [PORT_init, regWrite_trace, regOr_trace, List.filter_append, isTrgmuxWrite]

theorem Enable_Interrupt_trgmux (d : DeviceHeader) (n : Nat) (m : Machine) :
    (Enable_Interrupt d n m).trace.filter isTrgmuxWrite = m.trace.filter isTrgmuxWrite := by
  simp [Enable_Interrupt, regWrite_trace, List.filter_append, isTrgmuxWrite]

theorem callExt_trgmux (f : String) (args : List Nat) (g : Regs → Regs) (m : Machine) :
    (callExt f args g m).trace.filter isTrgmuxWrite = m.trace.filter isTrgmuxWrite := by
  simp [callExt_trace, List.filter_append, isTrgmuxWrite]

theorem or_mod_and (y k : Nat) (hk : k < 2 ^ 32) : (y ||| k) % 2 ^ 32 &&& k = k := by
  apply Nat.eq_of_testBit_eq
  intro i
  simp only [Nat.testBit_and, Nat.testBit_mod_two_pow, Nat.testBit_or]
  by_cases hi : i < 32
  · cases y.testBit i <;> cases k.testBit i <;> simp [hi]
  · have : k.testBit i = false :=
      Nat.testBit_lt_two_pow (lt_of_lt_of_le hk (Nat.pow_le_pow_right (by norm_num) (by omega)))
    simp [this]

theorem or_and_LK (r k : Nat) (hr : r &&& 0x80000000 = 0) (hk : k &&& 0x80000000 = 0) :
    ¬ (r ||| k) &&& 0x80000000 = 0x80000000 := by
  rw [Nat.and_comm, Nat.and_or_distrib_left, Nat.and_comm, hr, Nat.and_comm, hk]
  decide

theorem SEL0_14 : TRGMUX_TRGMUXn_SEL0 14 = 14 := by decide

theorem SEL0_17 : TRGMUX_TRGMUXn_SEL0 17 = 17 := by decide

theorem main_select_LPUART0_regs (d : DeviceHeader) (m : Machine)
    (h32 : m.regs .TRGMUX_LPUART0 < 2 ^ 32)
    (hlk : m.regs .TRGMUX_LPUART0 &&& TRGMUX_TRGMUXn_LK_MASK = 0) :
    (main_select_LPUART0 d m).regs .TRGMUX_LPUART0
      = m.regs .TRGMUX_LPUART0 ||| 14 ||| TRGMUX_TRGMUXn_LK_MASK := by
  have h1 : (m.regs .TRGMUX_LPUART0 ||| 14) < 4294967296 :=
    @Nat.or_lt_two_pow _ _ 32 h32 (by norm_num)
  have h2 : (m.regs .TRGMUX_LPUART0 ||| 14 ||| 0x80000000) < 4294967296 :=
    @Nat.or_lt_two_pow _ _ 32 h1 (by norm_num)
  simp only [TRGMUX_TRGMUXn_LK_MASK] at hlk ⊢
  have h0 : ¬ m.regs .TRGMUX_LPUART0 &&& 0x80000000 = 0x80000000 := by rw [hlk]; decide
  have h3 := or_and_LK _ 14 hlk (by decide)
  simp only [main_select_LPUART0, regOr, regWrite, hwWrite, hwRead, SEL0_14,
    TRGMUX_TRGMUXn_LK_MASK, h0, if_false]
  simp [setReg, h3, Nat.mod_eq_of_lt h1, Nat.mod_eq_of_lt h2]

theorem main_select_CMP0_regs (d : DeviceHeader) (m : Machine)
    (h32 : m.regs .TRGMUX_CMP0 < 2 ^ 32)
    (hlk : m.regs .TRGMUX_CMP0 &&& TRGMUX_TRGMUXn_LK_MASK = 0) :
    (main_select_CMP0 d m).regs .TRGMUX_CMP0
      = m.regs .TRGMUX_CMP0 ||| 17 ||| TRGMUX_TRGMUXn_LK_MASK := by
  have h1 : (m.regs .TRGMUX_CMP0 ||| 17) < 4294967296 :=
    @Nat.or_lt_two_pow _ _ 32 h32 (by norm_num)
  have h2 : (m.regs .TRGMUX_CMP0 ||| 17 ||| 0x80000000) < 4294967296 :=
    @Nat.or_lt_two_pow _ _ 32 h1 (by norm_num)
  simp only [TRGMUX_TRGMUXn_LK_MASK] at hlk ⊢
  have h0 : ¬ m.regs .TRGMUX_CMP0 &&& 0x80000000 = 0x80000000 := by rw [hlk]; decide
  have h3 := or_and_LK _ 17 hlk (by decide)
  simp only [main_select_CMP0, regOr, regWrite, hwWrite, hwRead, SEL0_17,
    TRGMUX_TRGMUXn_LK_MASK, h0, if_false]
  simp [setReg, h3, Nat.mod_eq_of_lt h1, Nat.mod_eq_of_lt h2]

theorem WDOG_disable_frame (d : DeviceHeader) (m : Machine) (q : Reg)
    (hq : q = .TRGMUX_LPUART0 ∨ q = .TRGMUX_CMP0) :
    (WDOG_disable d m).regs q = m.regs q := by
  rcases hq with rfl | rfl <;> simp [WDOG_disable, regWrite_frame]

theorem PORT_init_frame (d : DeviceHeader) (m : Machine) (q : Reg)
    (hq : q = .TRGMUX_LPUART0 ∨ q = .TRGMUX_CMP0) :
    (PORT_init d m).regs q = m.regs q := by
  rcases hq with rfl | rfl <;> simp [PORT_init, regWrite_frame, regOr_frame]

theorem Enable_Interrupt_frame (d : DeviceHeader) (n : Nat) (m : Machine) (q : Reg)
    (hq : q = .TRGMUX_LPUART0 ∨ q = .TRGMUX_CMP0 ∨ q = .PTD_PDDR) :
    (Enable_Interrupt d n m).regs q = m.regs q := by
  rcases hq with rfl | rfl | rfl <;> simp [Enable_Interrupt, regWrite_frame]

theorem Enable_Interrupt_frame_PDOR (d : DeviceHeader) (n : Nat) (m : Machine) :
    (Enable_Interrupt d n m).regs .PTD_PDOR = m.regs .PTD_PDOR := by
  simp [Enable_Interrupt, regWrite_frame_PDOR]

theorem main_select_LPUART0_frame (d : DeviceHeader) (m : Machine) (q : Reg)
    (hq : q = .TRGMUX_CMP0 ∨ q = .PTD_PDDR) :
    (main_select_LPUART0 d m).regs q = m.regs q := by
  rcases hq with rfl | rfl <;> simp [main_select_LPUART0, regOr_frame]

theorem main_select_LPUART0_frame_PDOR (d : DeviceHeader) (m : Machine) :
    (main_select_LPUART0 d m).regs .PTD_PDOR = m.regs .PTD_PDOR := by
  simp [main_select_LPUART0, regOr_frame_PDOR]

theorem main_select_CMP0_frame (d : DeviceHeader) (m : Machine) (q : Reg)
    (hq : q = .TRGMUX_LPUART0 ∨ q = .PTD_PDDR) :
    (main_select_CMP0 d m).regs q = m.regs q := by
  rcases hq with rfl | rfl <;> simp [main_select_CMP0, regOr_frame]

theorem main_select_CMP0_frame_PDOR (d : DeviceHeader) (m : Machine) :
    (main_select_CMP0 d m).regs .PTD_PDOR = m.regs .PTD_PDOR := by
  simp [main_select_CMP0, regOr_frame_PDOR]

theorem keepTrgmux_apply {x : Drivers} (hx : x.keepTrgmux) (regs : Regs) :
    (x.SOSC_init_40MHz regs .TRGMUX_LPUART0 = regs .TRGMUX_LPUART0 ∧
      x.SOSC_init_40MHz regs .TRGMUX_CMP0 = regs .TRGMUX_CMP0) ∧
    (x.RUN_mode_48MHz regs .TRGMUX_LPUART0 = regs .TRGMUX_LPUART0 ∧
      x.RUN_mode_48MHz regs .TRGMUX_CMP0 = regs .TRGMUX_CMP0) ∧
    (x.LPUART0_init regs .TRGMUX_LPUART0 = regs .TRGMUX_LPUART0 ∧
      x.LPUART0_init regs .TRGMUX_CMP0 = regs .TRGMUX_CMP0) ∧
    (x.ACMP_init 127 regs .TRGMUX_LPUART0 = regs .TRGMUX_LPUART0 ∧
      x.ACMP_init 127 regs .TRGMUX_CMP0 = regs .TRGMUX_CMP0) ∧
    (x.LPIT0_init 32000000 regs .TRGMUX_LPUART0 = regs .TRGMUX_LPUART0 ∧
      x.LPIT0_init 32000000 regs .TRGMUX_CMP0 = regs .TRGMUX_CMP0) :=
  ⟨hx _ (by simp) regs, hx _ (by simp) regs, hx _ (by simp) regs, hx _ (by simp) regs,
    hx _ (by simp) regs⟩

theorem beforeSelectLPUART0_regs (d : DeviceHeader) (x : Drivers) (regs : Regs)
    (hx : x.keepTrgmux) (q : Reg) (hq : q = .TRGMUX_LPUART0 ∨ q = .TRGMUX_CMP0) :
    (beforeSelectLPUART0 d x regs).regs q = regs q := by
  rcases hq with rfl | rfl <;>
  simp [beforeSelectLPUART0, callExt_regs, keepTrgmux_apply hx, PORT_init_frame, WDOG_disable_frame, Machine.start]

theorem main_setup_regs (d : DeviceHeader) (x : Drivers) (regs : Regs) (hx : x.keepTrgmux)
   (hL : regs .TRGMUX_LPUART0 < 2 ^ 32) (hC : regs .TRGMUX_CMP0 < 2 ^ 32)
    (hLK : regs .TRGMUX_LPUART0 &&& TRGMUX_TRGMUXn_LK_MASK = 0)
    (hCK : regs .TRGMUX_CMP0 &&& TRGMUX_TRGMUXn_LK_MASK = 0) :
    (main_setup d x (Machine.start regs)).regs .TRGMUX_LPUART0 = regs .TRGMUX_LPUART0 ||| 14 ||| TRGMUX_TRGMUXn_LK_MASK ∧
    (main_setup d x (Machine.start regs)).regs .TRGMUX_CMP0 = regs .TRGMUX_CMP0 ||| 17 ||| TRGMUX_TRGMUXn_LK_MASK := by
  have e : main_setup d x (Machine.start regs) =
      (beforeSelectLPUART0 d x regs
        |> main_select_LPUART0 d
        |> callExt "ACMP_init" [127] (x.ACMP_init 127)
        |> main_select_CMP0 d
        |> callExt "LPIT0_init" [32000000] (x.LPIT0_init 32000000)
        |> Enable_Interrupt d d.CMP0_IRQn
        |> Enable_Interrupt d d.LPIT0_IRQn) := rfl
  have bL := beforeSelectLPUART0_regs d x regs hx .TRGMUX_LPUART0 (by simp)
  have bC := beforeSelectLPUART0_regs d x regs hx .TRGMUX_CMP0 (by simp)
  rw [e]
  constructor
  · simp only [Enable_Interrupt_frame, callExt_regs, keepTrgmux_apply hx, main_select_CMP0_frame, true_or, or_true]
    rw [main_select_LPUART0_regs d _ (by rw [bL]; exact hL) (by rw [bL]; exact hLK), bL]
  · simp only [Enable_Interrupt_frame, callExt_regs, keepTrgmux_apply hx, true_or, or_true]
    rw [main_select_CMP0_regs, callExt_regs, (keepTrgmux_apply hx _).2.2.2.1.2, main_select_LPUART0_frame _ _ _ (by simp), bC]
    · simp only [callExt_regs, keepTrgmux_apply hx, main_select_LPUART0_frame, true_or, bC, hC]
    · simp only [callExt_regs, keepTrgmux_apply hx, main_select_LPUART0_frame, true_or, bC, hCK]

theorem regOr_LPUART0_unlocked (d : DeviceHeader) (m : Machine) (k : Nat)
    (h32 : m.regs .TRGMUX_LPUART0 < 2 ^ 32) (hk : k < 2 ^ 32)
    (hlk : m.regs .TRGMUX_LPUART0 &&& TRGMUX_TRGMUXn_LK_MASK = 0) :
    (regOr d .TRGMUX_LPUART0 k m).regs .TRGMUX_LPUART0 = m.regs .TRGMUX_LPUART0 ||| k := by
  have h1 : (m.regs .TRGMUX_LPUART0 ||| k) < 4294967296 := @Nat.or_lt_two_pow _ _ 32 h32 hk
  simp only [TRGMUX_TRGMUXn_LK_MASK] at hlk
  simp [regOr, regWrite, hwWrite, hwRead, setReg, TRGMUX_TRGMUXn_LK_MASK, hlk,
    Nat.mod_eq_of_lt h1]

theorem regOr_CMP0_unlocked (d : DeviceHeader) (m : Machine) (k : Nat)
    (h32 : m.regs .TRGMUX_CMP0 < 2 ^ 32) (hk : k < 2 ^ 32)
    (hlk : m.regs .TRGMUX_CMP0 &&& TRGMUX_TRGMUXn_LK_MASK = 0) :
    (regOr d .TRGMUX_CMP0 k m).regs .TRGMUX_CMP0 = m.regs .TRGMUX_CMP0 ||| k := by
  have h1 : (m.regs .TRGMUX_CMP0 ||| k) < 4294967296 := @Nat.or_lt_two_pow _ _ 32 h32 hk
  simp only [TRGMUX_TRGMUXn_LK_MASK] at hlk
  simp [regOr, regWrite, hwWrite, hwRead, setReg, TRGMUX_TRGMUXn_LK_MASK, hlk,
    Nat.mod_eq_of_lt h1]

theorem main_setup_eq (d : DeviceHeader) (x : Drivers) (regs : Regs) :
    main_setup d x (Machine.start regs) =
      (beforeSelectLPUART0 d x regs
        |> main_select_LPUART0 d
        |> callExt "ACMP_init" [127] (x.ACMP_init 127)
        |> main_select_CMP0 d
        |> callExt "LPIT0_init" [32000000] (x.LPIT0_init 32000000)
        |> Enable_Interrupt d d.CMP0_IRQn
        |> Enable_Interrupt d d.LPIT0_IRQn) := rfl

theorem beforeSelectLPUART0_trgmux (d : DeviceHeader) (x : Drivers) (regs : Regs) :
    (beforeSelectLPUART0 d x regs).trace.filter isTrgmuxWrite = [] := by
  simp only [beforeSelectLPUART0, callExt_trgmux, PORT_init_trgmux, WDOG_disable_trgmux]
  rfl

theorem main_setup_reset_trace (d : DeviceHeader) (x : Drivers) (hx : x.keepTrgmux) :
    (main_setup d x (Machine.start resetRegs)).trace.filter isTrgmuxWrite
      = [Event.write .TRGMUX_LPUART0 14, Event.write .TRGMUX_LPUART0 0x8000000E,
          Event.write .TRGMUX_CMP0 17, Event.write .TRGMUX_CMP0 0x80000011] := by
  have bL := beforeSelectLPUART0_regs d x resetRegs hx .TRGMUX_LPUART0 (by simp)
  have bC := beforeSelectLPUART0_regs d x resetRegs hx .TRGMUX_CMP0 (by simp)
  have hL : (regOr d .TRGMUX_LPUART0 14 (beforeSelectLPUART0 d x resetRegs)).regs
      .TRGMUX_LPUART0 = 14 := by
    rw [regOr_LPUART0_unlocked d _ 14 (by rw [bL]; decide) (by norm_num) (by rw [bL]; decide), bL]
    rfl
  have hC : (regOr d .TRGMUX_CMP0 17 (callExt "ACMP_init" [127] (x.ACMP_init 127)
      (main_select_LPUART0 d (beforeSelectLPUART0 d x resetRegs)))).regs .TRGMUX_CMP0 = 17 := by
    have h0 : (callExt "ACMP_init" [127] (x.ACMP_init 127)
      (main_select_LPUART0 d (beforeSelectLPUART0 d x resetRegs))).regs .TRGMUX_CMP0 = 0 := by
      rw [callExt_regs, (keepTrgmux_apply hx _).2.2.2.1.2,
        main_select_LPUART0_frame _ _ _ (by simp), bC]
      rfl
    rw [regOr_CMP0_unlocked d _ 17 (by rw [h0]; decide) (by norm_num) (by rw [h0]; decide), h0]
    rfl
  have hC0 : (callExt "ACMP_init" [127] (x.ACMP_init 127)
      (main_select_LPUART0 d (beforeSelectLPUART0 d x resetRegs))).regs .TRGMUX_CMP0 = 0 := by
    rw [callExt_regs, (keepTrgmux_apply hx _).2.2.2.1.2,
      main_select_LPUART0_frame _ _ _ (by simp), bC]
    rfl
  rw [main_setup_eq]
  simp only [Enable_Interrupt_trgmux, callExt_trgmux, main_select_CMP0,
    main_select_LPUART0, regOr_trace, List.filter_append, beforeSelectLPUART0_trgmux, SEL0_14, SEL0_17] at hC hC0 ⊢
  simp only [hwRead, hL, hC, bL, hC0]
  rfl

theorem idleDrivers_keepTrgmux : idleDrivers.keepTrgmux := by
  intro f hf regs
  simp only [idleDrivers, List.mem_cons, List.mem_singleton, List.not_mem_nil, or_false,
    or_self] at hf
  subst hf
  exact ⟨rfl, rfl⟩

/-- C4 as stated fails: in the run of `main` from reset, the first write to
`TRGMUX[LPUART0]` (the select of source 14) comes when no TRGMUX register has been written
yet, so the comparator link `TRGMUX[CMP0]` is neither selected nor locked at that point. -/
theorem main_setup_writes_LPUART0_link_first :
    ∃ pre v post,
      (main_setup s32k116Header idleDrivers (Machine.start resetRegs)).trace
        = pre ++ Event.write .TRGMUX_LPUART0 v :: post ∧
      ∀ e ∈ pre, isTrgmuxWrite e = false :=
  ⟨(main_setup s32k116Header idleDrivers (Machine.start resetRegs)).trace.take 17, 14,
    (main_setup s32k116Header idleDrivers (Machine.start resetRegs)).trace.drop 18,
    by decide, by decide⟩

/-- C4 (amended): whatever the register file at entry and whatever the drivers do, the log
of `main` contains, one right after the other: the select of the LPUART0 link (source 14),
the lock of the LPUART0 link, the call of `ACMP_init`, the select of the CMP0 link
(source 17), the lock of the CMP0 link; no TRGMUX register is written before or after these.
The Comparator→Transmitter link is written and locked first; the Timer→Comparator link
only afterwards, after `ACMP_init`. -/
theorem main_setup_trgmux_order (d : DeviceHeader) (x : Drivers) (regs : Regs) :
    ∃ pre a b c e post,
      (main_setup d x (Machine.start regs)).trace
        = pre ++ [Event.write .TRGMUX_LPUART0 a, Event.write .TRGMUX_LPUART0 b,
            Event.call "ACMP_init" [127],
            Event.write .TRGMUX_CMP0 c, Event.write .TRGMUX_CMP0 e] ++ post ∧
      (∀ ev ∈ pre, isTrgmuxWrite ev = false) ∧
      (∀ ev ∈ post, isTrgmuxWrite ev = false) ∧
      a &&& 14 = 14 ∧
      b &&& TRGMUX_TRGMUXn_LK_MASK = TRGMUX_TRGMUXn_LK_MASK ∧
      c &&& 17 = 17 ∧
      e &&& TRGMUX_TRGMUXn_LK_MASK = TRGMUX_TRGMUXn_LK_MASK := by
  refine ⟨(beforeSelectLPUART0 d x regs).trace, ?a, ?b, ?c, ?e, ?post, ?eq, ?hpre, ?hpost,
    ?selL, ?lockL, ?selC, ?lockC⟩
  case eq =>
    rw [main_setup_eq]
    simp only [Enable_Interrupt, callExt_trace, main_select_CMP0, main_select_LPUART0,
      regOr_trace, regWrite_trace, List.append_assoc, List.singleton_append, List.cons_append,
      List.nil_append, SEL0_14, SEL0_17]
    refine congrArg (fun l => (beforeSelectLPUART0 d x regs).trace ++ l) ?_
    exact rfl
  case hpre =>
    intro ev hev
    have h := beforeSelectLPUART0_trgmux d x regs
    rw [List.filter_eq_nil_iff] at h
    simpa using h ev hev
  case hpost =>
    intro ev hev
    simp only [List.mem_cons, List.mem_singleton, List.not_mem_nil, or_false] at hev
    rcases hev with rfl | rfl | rfl | rfl | rfl <;> rfl
  case selL => exact or_mod_and _ 14 (by norm_num)
  case lockL => exact or_mod_and _ _ (by norm_num [TRGMUX_TRGMUXn_LK_MASK])
  case selC => exact or_mod_and _ 17 (by norm_num)
  case lockC => exact or_mod_and _ _ (by norm_num [TRGMUX_TRGMUXn_LK_MASK])

/-- C9: for every prior value of the register with LK clear, the two read-modify-write
statements of `main` leave `TRGMUX[LPUART0]` = prior OR 14 OR LK and `TRGMUX[CMP0]` =
prior OR 17 OR LK.  From reset (drivers leaving the TRGMUX registers alone), after `main`
has set the chip up the LPUART0 link has SEL0 = 14 and the CMP0 link has SEL0 = 17, both
have LK set, and the writes of `main` to the TRGMUX registers are exactly select, lock,
select, lock: no register is written again after the write that sets its lock bit. -/
theorem main_links_selected_then_locked (d : DeviceHeader) (x : Drivers) (m : Machine)
    (hx : x.keepTrgmux)
    (hL : m.regs .TRGMUX_LPUART0 < 2 ^ 32)
    (hLK : m.regs .TRGMUX_LPUART0 &&& TRGMUX_TRGMUXn_LK_MASK = 0)
    (hC : m.regs .TRGMUX_CMP0 < 2 ^ 32)
    (hCK : m.regs .TRGMUX_CMP0 &&& TRGMUX_TRGMUXn_LK_MASK = 0) :
    (main_select_LPUART0 d m).regs .TRGMUX_LPUART0
        = m.regs .TRGMUX_LPUART0 ||| 14 ||| TRGMUX_TRGMUXn_LK_MASK ∧
      (main_select_CMP0 d m).regs .TRGMUX_CMP0
        = m.regs .TRGMUX_CMP0 ||| 17 ||| TRGMUX_TRGMUXn_LK_MASK ∧
      (main_setup d x (Machine.start resetRegs)).regs .TRGMUX_LPUART0 &&& 0x3F = 14 ∧
      (main_setup d x (Machine.start resetRegs)).regs .TRGMUX_LPUART0 &&& TRGMUX_TRGMUXn_LK_MASK
        = TRGMUX_TRGMUXn_LK_MASK ∧
      (main_setup d x (Machine.start resetRegs)).regs .TRGMUX_CMP0 &&& 0x3F = 17 ∧
      (main_setup d x (Machine.start resetRegs)).regs .TRGMUX_CMP0 &&& TRGMUX_TRGMUXn_LK_MASK
        = TRGMUX_TRGMUXn_LK_MASK ∧
      (main_setup d x (Machine.start resetRegs)).trace.filter isTrgmuxWrite
        = [Event.write .TRGMUX_LPUART0 14, Event.write .TRGMUX_LPUART0 0x8000000E,
            Event.write .TRGMUX_CMP0 17, Event.write .TRGMUX_CMP0 0x80000011] := by
  obtain ⟨rL, rC⟩ := main_setup_regs d x resetRegs hx (by decide) (by decide) (by decide)
    (by decide)
  refine ⟨main_select_LPUART0_regs d m hL hLK, main_select_CMP0_regs d m hC hCK, ?_, ?_, ?_, ?_,
    main_setup_reset_trace d x hx⟩
  · rw [rL]; decide
  · rw [rL]; decide
  · rw [rC]; decide
  · rw [rC]; decide

/-- Witness for `main_links_selected_then_locked`: the reset register file and drivers that
touch nothing. -/
theorem main_links_selected_then_locked_witness :
    idleDrivers.keepTrgmux ∧
      (Machine.start resetRegs).regs .TRGMUX_LPUART0 < 2 ^ 32 ∧
      (Machine.start resetRegs).regs .TRGMUX_LPUART0 &&& TRGMUX_TRGMUXn_LK_MASK = 0 ∧
      (Machine.start resetRegs).regs .TRGMUX_CMP0 < 2 ^ 32 ∧
      (Machine.start resetRegs).regs .TRGMUX_CMP0 &&& TRGMUX_TRGMUXn_LK_MASK = 0 ∧
      (main_select_LPUART0 s32k116Header (Machine.start resetRegs)).regs .TRGMUX_LPUART0
        = (Machine.start resetRegs).regs .TRGMUX_LPUART0 ||| 14 ||| TRGMUX_TRGMUXn_LK_MASK :=
  ⟨idleDrivers_keepTrgmux, by decide, by decide, by decide, by decide,
    (main_links_selected_then_locked s32k116Header idleDrivers (Machine.start resetRegs)
      idleDrivers_keepTrgmux (by decide) (by decide) (by decide) (by decide)).1⟩

/-! ## The interrupt handlers and the first evaluation -/


theorem CMP0_IRQHandler_rising_PDOR (d : DeviceHeader) (m : Machine)
    (h : m.regs .CMP0_C0 &&& d.CMP_C0_CFR_MASK = d.CMP_C0_CFR_MASK) :
    (CMP0_IRQHandler d m).regs .PTD_PDOR = clearBits (m.regs .PTD_PDOR ||| 65536) 32768 := by
  simp [CMP0_IRQHandler, hwRead, h, regOr, regWrite, hwWrite, setReg, PTD15, PTD16]

theorem CMP0_IRQHandler_falling_PDOR (d : DeviceHeader) (m : Machine)
    (h : ¬ m.regs .CMP0_C0 &&& d.CMP_C0_CFR_MASK = d.CMP_C0_CFR_MASK)
    (h2 : m.regs .CMP0_C0 &&& d.CMP_C0_CFF_MASK = d.CMP_C0_CFF_MASK) :
    (CMP0_IRQHandler d m).regs .PTD_PDOR = clearBits (m.regs .PTD_PDOR ||| 32768) 65536 := by
  simp [CMP0_IRQHandler, hwRead, h, h2, regOr, regWrite, hwWrite, setReg, PTD15, PTD16]

theorem CMP0_IRQHandler_idle (d : DeviceHeader) (m : Machine)
    (h : ¬ m.regs .CMP0_C0 &&& d.CMP_C0_CFR_MASK = d.CMP_C0_CFR_MASK)
    (h2 : ¬ m.regs .CMP0_C0 &&& d.CMP_C0_CFF_MASK = d.CMP_C0_CFF_MASK) :
    CMP0_IRQHandler d m = m := by
  simp [CMP0_IRQHandler, hwRead, h, h2]

theorem CMP0_IRQHandler_PDDR (d : DeviceHeader) (m : Machine) :
    (CMP0_IRQHandler d m).regs .PTD_PDDR = m.regs .PTD_PDDR := by
  unfold CMP0_IRQHandler
  split
  · simp [regOr_frame]
  · split
    · simp [regOr_frame]
    · rfl

/-- In the rising branch both edge flags end up clear, whatever the header masks are. -/
theorem CMP0_IRQHandler_rising_C0 (d : DeviceHeader) (m : Machine)
    (h : m.regs .CMP0_C0 &&& d.CMP_C0_CFR_MASK = d.CMP_C0_CFR_MASK)
    (h32 : m.regs .CMP0_C0 < 2 ^ 32) (hm : d.CMP_C0_CFR_MASK < 2 ^ 32) :
    (CMP0_IRQHandler d m).regs .CMP0_C0
      = clearBits (m.regs .CMP0_C0) (d.CMP_C0_CFR_MASK ||| d.CMP_C0_CFF_MASK) := by
  have h1 : (m.regs .CMP0_C0 ||| d.CMP_C0_CFR_MASK) < 4294967296 :=
    @Nat.or_lt_two_pow _ _ 32 h32 hm
  have e : (CMP0_IRQHandler d m).regs .CMP0_C0
      = clearBits (m.regs .CMP0_C0 ||| d.CMP_C0_CFR_MASK)
          (d.CMP_C0_CFR_MASK ||| d.CMP_C0_CFF_MASK) |||
        clearBits (m.regs .CMP0_C0 &&& (d.CMP_C0_CFR_MASK ||| d.CMP_C0_CFF_MASK))
          (m.regs .CMP0_C0 ||| d.CMP_C0_CFR_MASK) := by
    simp [CMP0_IRQHandler, hwRead, h, regOr, regWrite, hwWrite, setReg, Nat.mod_eq_of_lt h1]
  rw [e]
  apply Nat.eq_of_testBit_eq
  intro i
  simp only [Nat.testBit_or, testBit_clearBits, Nat.testBit_and]
  cases (m.regs .CMP0_C0).testBit i <;> cases d.CMP_C0_CFR_MASK.testBit i <;>
    cases d.CMP_C0_CFF_MASK.testBit i <;> rfl

/-- C5 fails on the code: entered with both CFR and CFF set, `CMP0_IRQHandler` leaves CFF
clear.  The statement `CMP0->C0 |= CMP_C0_CFR_MASK` writes back the word it has read, in
which CFF is 1 as well, and a written 1 clears the flag. -/
theorem CMP0_IRQHandler_loses_falling_edge :
    (setReg resetRegs .CMP0_C0 0x6000000 .CMP0_C0 &&& s32k116Header.CMP_C0_CFR_MASK
        = s32k116Header.CMP_C0_CFR_MASK) ∧
      (setReg resetRegs .CMP0_C0 0x6000000 .CMP0_C0 &&& s32k116Header.CMP_C0_CFF_MASK
        = s32k116Header.CMP_C0_CFF_MASK) ∧
      (CMP0_IRQHandler s32k116Header
          (Machine.start (setReg resetRegs .CMP0_C0 0x6000000))).regs .CMP0_C0
        &&& s32k116Header.CMP_C0_CFF_MASK = 0 := by
  decide

/-- C6: `LPIT0_IRQHandler` returns with TIF0 clear; entered with TIF0 clear it performs no
write and leaves the whole machine (registers and log) unchanged; running it twice gives
the same machine as running it once. -/
theorem LPIT0_IRQHandler_clears_TIF0 (d : DeviceHeader) (m : Machine) :
    ¬ ((LPIT0_IRQHandler d m).regs .LPIT0_MSR &&& LPIT_MSR_TIF0_MASK = LPIT_MSR_TIF0_MASK) ∧
      (¬ (m.regs .LPIT0_MSR &&& LPIT_MSR_TIF0_MASK = LPIT_MSR_TIF0_MASK) →
        LPIT0_IRQHandler d m = m) ∧
      LPIT0_IRQHandler d (LPIT0_IRQHandler d m) = LPIT0_IRQHandler d m := by
  have clear : ¬ ((LPIT0_IRQHandler d m).regs .LPIT0_MSR &&& LPIT_MSR_TIF0_MASK
      = LPIT_MSR_TIF0_MASK) := by
    unfold LPIT0_IRQHandler
    split
    · have e : (regOr d .LPIT0_MSR LPIT_MSR_TIF0_MASK m).regs .LPIT0_MSR
          = clearBits (m.regs .LPIT0_MSR) ((m.regs .LPIT0_MSR ||| 1) % 2 ^ 32 &&& 15) := rfl
      rw [e, LPIT_MSR_TIF0_MASK, and_one_eq_one_iff, msr_bit0_cleared]
      decide
    · assumption
  have idle : ∀ m' : Machine,
      ¬ (m'.regs .LPIT0_MSR &&& LPIT_MSR_TIF0_MASK = LPIT_MSR_TIF0_MASK) →
        LPIT0_IRQHandler d m' = m' := by
    intro m' h
    simp [LPIT0_IRQHandler, hwRead, h]
  exact ⟨clear, idle m, idle _ clear⟩

/-- Witness for `LPIT0_IRQHandler_clears_TIF0`: entered at reset, where TIF0 is clear, the
handler leaves the machine as it is. -/
theorem LPIT0_IRQHandler_clears_TIF0_witness :
    ¬ ((Machine.start resetRegs).regs .LPIT0_MSR &&& LPIT_MSR_TIF0_MASK = LPIT_MSR_TIF0_MASK) ∧
      LPIT0_IRQHandler s32k116Header (Machine.start resetRegs) = Machine.start resetRegs :=
  ⟨by decide, (LPIT0_IRQHandler_clears_TIF0 s32k116Header (Machine.start resetRegs)).2.1
    (by decide)⟩

/-- C8: the writes of one invocation of `CMP0_IRQHandler` entered with an edge flag set are,
in this order, the `PSOR` write that turns one LED off, the `PCOR` write that turns the
other LED on, and the write of `CMP0->C0` that clears the flag: the flag-clear is the final
write.  The only write of `LPIT0_IRQHandler` entered with TIF0 set is the flag-clear of
`LPIT0->MSR`. -/
theorem handlers_flag_clear_is_last (d : DeviceHeader) (m : Machine) :
    (m.regs .CMP0_C0 &&& d.CMP_C0_CFR_MASK = d.CMP_C0_CFR_MASK →
      (CMP0_IRQHandler d m).trace = m.trace ++
        [Event.write .PTD_PSOR (1 <<< PTD16), Event.write .PTD_PCOR (1 <<< PTD15),
          Event.write .CMP0_C0 ((m.regs .CMP0_C0 ||| d.CMP_C0_CFR_MASK) % 2 ^ 32)]) ∧
    (¬ m.regs .CMP0_C0 &&& d.CMP_C0_CFR_MASK = d.CMP_C0_CFR_MASK →
      m.regs .CMP0_C0 &&& d.CMP_C0_CFF_MASK = d.CMP_C0_CFF_MASK →
      (CMP0_IRQHandler d m).trace = m.trace ++
        [Event.write .PTD_PSOR (1 <<< PTD15), Event.write .PTD_PCOR (1 <<< PTD16),
          Event.write .CMP0_C0 ((m.regs .CMP0_C0 ||| d.CMP_C0_CFF_MASK) % 2 ^ 32)]) ∧
    (m.regs .LPIT0_MSR &&& LPIT_MSR_TIF0_MASK = LPIT_MSR_TIF0_MASK →
      (LPIT0_IRQHandler d m).trace = m.trace ++
        [Event.write .LPIT0_MSR ((m.regs .LPIT0_MSR ||| LPIT_MSR_TIF0_MASK) % 2 ^ 32)]) := by
  refine ⟨fun h => ?_, fun h h2 => ?_, fun h => ?_⟩
  · simp [CMP0_IRQHandler, hwRead, h, regOr_trace, regOr_frame, PTD15, PTD16]
  · simp [CMP0_IRQHandler, hwRead, h, h2, regOr_trace, regOr_frame, PTD15, PTD16]
  · simp [LPIT0_IRQHandler, hwRead, h, regOr_trace]

/-- Witness for `handlers_flag_clear_is_last`: an invocation entered with CFR set. -/
theorem handlers_flag_clear_is_last_witness :
    (setReg resetRegs .CMP0_C0 0x4000000 .CMP0_C0 &&& s32k116Header.CMP_C0_CFR_MASK
        = s32k116Header.CMP_C0_CFR_MASK) ∧
      (CMP0_IRQHandler s32k116Header
          (Machine.start (setReg resetRegs .CMP0_C0 0x4000000))).trace
        = (Machine.start (setReg resetRegs .CMP0_C0 0x4000000)).trace ++
          [Event.write .PTD_PSOR (1 <<< PTD16), Event.write .PTD_PCOR (1 <<< PTD15),
            Event.write .CMP0_C0
              (((Machine.start (setReg resetRegs .CMP0_C0 0x4000000)).regs .CMP0_C0
                ||| s32k116Header.CMP_C0_CFR_MASK) % 2 ^ 32)] :=
  ⟨by decide, (handlers_flag_clear_is_last s32k116Header
    (Machine.start (setReg resetRegs .CMP0_C0 0x4000000))).1 (by decide)⟩

theorem regOr_PSOR_regs (d : DeviceHeader) (k : Nat) (m : Machine) :
    (regOr d .PTD_PSOR k m).regs .PTD_PDOR = m.regs .PTD_PDOR ||| (k % 2 ^ 32) := by
  simp [regOr, regWrite, hwWrite, hwRead, setReg]

theorem regOr_PDDR_regs (d : DeviceHeader) (k : Nat) (m : Machine) :
    (regOr d .PTD_PDDR k m).regs .PTD_PDDR = (m.regs .PTD_PDDR ||| k) % 2 ^ 32 := by
  simp [regOr, regWrite, hwWrite, hwRead, setReg]

/-- The function `PORT_init` leaves both LED pins as outputs with data bit 1: both LEDs off. -/
theorem PORT_init_leds (d : DeviceHeader) (m : Machine) :
    greenOn (PORT_init d m).regs = false ∧ redOn (PORT_init d m).regs = false ∧
      ((PORT_init d m).regs .PTD_PDDR).testBit PTD15 = true ∧
      ((PORT_init d m).regs .PTD_PDDR).testBit PTD16 = true ∧
      ((PORT_init d m).regs .PTD_PDOR).testBit PTD15 = true ∧
      ((PORT_init d m).regs .PTD_PDOR).testBit PTD16 = true := by
  have hD : ((PORT_init d m).regs .PTD_PDOR).testBit PTD15 = true ∧
      ((PORT_init d m).regs .PTD_PDOR).testBit PTD16 = true := by
    simp only [PORT_init, regOr_PSOR_regs]
    simp [PTD15, PTD16, Nat.testBit_or, testBit_leds]
  have hDir : ((PORT_init d m).regs .PTD_PDDR).testBit PTD15 = true ∧
      ((PORT_init d m).regs .PTD_PDDR).testBit PTD16 = true := by
    simp only [PORT_init]
    rw [regOr_frame _ _ _ _ _ (by simp) (by simp), regOr_PDDR_regs]
    simp [PTD15, PTD16, Nat.testBit_or, testBit_leds, testBit_mod32]
  simp [greenOn, redOn, hD, hDir]

theorem keepPortD_apply {x : Drivers} (hx : x.keepPortD) (regs : Regs) :
    (x.LPUART0_init regs .PTD_PDOR = regs .PTD_PDOR ∧
      x.LPUART0_init regs .PTD_PDDR = regs .PTD_PDDR) ∧
    (x.ACMP_init 127 regs .PTD_PDOR = regs .PTD_PDOR ∧
      x.ACMP_init 127 regs .PTD_PDDR = regs .PTD_PDDR) ∧
    (x.LPIT0_init 32000000 regs .PTD_PDOR = regs .PTD_PDOR ∧
      x.LPIT0_init 32000000 regs .PTD_PDDR = regs .PTD_PDDR) :=
  ⟨hx _ (by simp) regs, hx _ (by simp) regs, hx _ (by simp) regs⟩

theorem idleDrivers_keepPortD : idleDrivers.keepPortD := by
  intro f hf regs
  simp only [idleDrivers, List.mem_cons, List.mem_singleton, List.not_mem_nil, or_false,
    or_self] at hf
  subst hf
  exact ⟨rfl, rfl⟩

theorem hwSet_regs (r : Reg) (v : Nat) (m : Machine) (q : Reg) :
    (hwSet r v m).regs q = if q = r then v else m.regs q := rfl

theorem LPIT0_IRQHandler_frame (d : DeviceHeader) (m : Machine) (q : Reg)
    (hq : q = .CMP0_C0 ∨ q = .PTD_PDDR ∨ q = .PTD_PDOR) :
    (LPIT0_IRQHandler d m).regs q = m.regs q := by
  unfold LPIT0_IRQHandler
  split
  · rcases hq with rfl | rfl | rfl
    · exact regOr_frame _ _ _ _ _ (by simp) (by simp)
    · exact regOr_frame _ _ _ _ _ (by simp) (by simp)
    · exact regOr_frame_PDOR _ _ _ _ (by simp) (by simp) (by simp)
  · rfl

/-- After `main` has set the chip up, both LED pins are outputs with data bit 1. -/
theorem main_setup_leds (d : DeviceHeader) (x : Drivers) (regs : Regs) (hx : x.keepPortD) :
    ((main_setup d x (Machine.start regs)).regs .PTD_PDDR).testBit PTD15 = true ∧
      ((main_setup d x (Machine.start regs)).regs .PTD_PDDR).testBit PTD16 = true ∧
      ((main_setup d x (Machine.start regs)).regs .PTD_PDOR).testBit PTD15 = true ∧
      ((main_setup d x (Machine.start regs)).regs .PTD_PDOR).testBit PTD16 = true := by
  have hp := PORT_init_leds d (callExt "RUN_mode_48MHz" [] x.RUN_mode_48MHz
    (callExt "SOSC_init_40MHz" [] x.SOSC_init_40MHz (WDOG_disable d (Machine.start regs))))
  have eD : (main_setup d x (Machine.start regs)).regs .PTD_PDDR
      = (PORT_init d (callExt "RUN_mode_48MHz" [] x.RUN_mode_48MHz
          (callExt "SOSC_init_40MHz" [] x.SOSC_init_40MHz
            (WDOG_disable d (Machine.start regs))))).regs .PTD_PDDR := by
    simp only [main_setup, Enable_Interrupt_frame, callExt_regs, keepPortD_apply hx,
      main_select_CMP0_frame, main_select_LPUART0_frame, true_or, or_true]
  have eO : (main_setup d x (Machine.start regs)).regs .PTD_PDOR
      = (PORT_init d (callExt "RUN_mode_48MHz" [] x.RUN_mode_48MHz
          (callExt "SOSC_init_40MHz" [] x.SOSC_init_40MHz
            (WDOG_disable d (Machine.start regs))))).regs .PTD_PDOR := by
    simp only [main_setup, Enable_Interrupt_frame_PDOR, callExt_regs, keepPortD_apply hx,
      main_select_CMP0_frame_PDOR, main_select_LPUART0_frame_PDOR]
  rw [eD, eO]
  exact hp.2.2

/-- C7 fails on the code: from reset, after `main` has set the chip up, with no edge flag in
`CMP0->C0` (the input is below the threshold at the first evaluation, the comparator output
stays at its reset level 0, so neither a rising nor a falling edge is raised) and the timer
flag set, after both handlers have run the red LED is not on, although the file description
of `main.c` says that with the input below the threshold the red LED is on. -/
theorem afterFirstEvaluation_red_off :
    ¬ (0 &&& s32k116Header.CMP_C0_CFR_MASK = s32k116Header.CMP_C0_CFR_MASK) ∧
      redOn (afterFirstEvaluation s32k116Header idleDrivers resetRegs 1 0).regs = false := by
  decide

/-- What the handlers do to the indicator after the setup of `main` (drivers leaving port D
alone): entered with no edge flag set they leave both LEDs off, as `PORT_init` left them;
entered with the falling flag CFF set and CFR clear they leave the red LED on and the green
LED off. -/
theorem afterFirstEvaluation_indicator (d : DeviceHeader) (x : Drivers) (reset : Regs)
    (msr c0 : Nat) (hx : x.keepPortD) :
    (¬ c0 &&& d.CMP_C0_CFR_MASK = d.CMP_C0_CFR_MASK →
      ¬ c0 &&& d.CMP_C0_CFF_MASK = d.CMP_C0_CFF_MASK →
      greenOn (afterFirstEvaluation d x reset msr c0).regs = false ∧
        redOn (afterFirstEvaluation d x reset msr c0).regs = false) ∧
    (¬ c0 &&& d.CMP_C0_CFR_MASK = d.CMP_C0_CFR_MASK →
      c0 &&& d.CMP_C0_CFF_MASK = d.CMP_C0_CFF_MASK →
      redOn (afterFirstEvaluation d x reset msr c0).regs = true ∧
        greenOn (afterFirstEvaluation d x reset msr c0).regs = false) := by
  obtain ⟨d15, d16, o15, o16⟩ := main_setup_leds d x reset hx
  have hC : (LPIT0_IRQHandler d (hwSet .CMP0_C0 c0 (hwSet .LPIT0_MSR msr
      (main_setup d x (Machine.start reset))))).regs .CMP0_C0 = c0 := by
    rw [LPIT0_IRQHandler_frame _ _ _ (by simp)]
    simp [hwSet_regs]
  have hO : (LPIT0_IRQHandler d (hwSet .CMP0_C0 c0 (hwSet .LPIT0_MSR msr
      (main_setup d x (Machine.start reset))))).regs .PTD_PDOR
      = (main_setup d x (Machine.start reset)).regs .PTD_PDOR := by
    rw [LPIT0_IRQHandler_frame _ _ _ (by simp)]
    simp [hwSet_regs]
  have hD : (LPIT0_IRQHandler d (hwSet .CMP0_C0 c0 (hwSet .LPIT0_MSR msr
      (main_setup d x (Machine.start reset))))).regs .PTD_PDDR
      = (main_setup d x (Machine.start reset)).regs .PTD_PDDR := by
    rw [LPIT0_IRQHandler_frame _ _ _ (by simp)]
    simp [hwSet_regs]
  refine ⟨fun h h2 => ?_, fun h h2 => ?_⟩
  · have e := CMP0_IRQHandler_idle d _ (by rw [hC]; exact h) (by rw [hC]; exact h2)
    simp only [afterFirstEvaluation, e, greenOn, redOn, hO, hD, d15, d16, o15, o16]
    simp
  · have e := CMP0_IRQHandler_falling_PDOR d _ (by rw [hC]; exact h) (by rw [hC]; exact h2)
    have eD := CMP0_IRQHandler_PDDR d (LPIT0_IRQHandler d (hwSet .CMP0_C0 c0
      (hwSet .LPIT0_MSR msr (main_setup d x (Machine.start reset)))))
    simp only [afterFirstEvaluation, greenOn, redOn, e, eD, hO, hD, d15, d16]
    simp only [PTD15, PTD16] at o15 o16 ⊢
    simp [testBit_clearBits, Nat.testBit_or, testBit_bit15, testBit_bit16, o15, o16]

/-- Witness for `afterFirstEvaluation_indicator`: a falling edge after reset. -/
theorem afterFirstEvaluation_indicator_witness :
    idleDrivers.keepPortD ∧
      ¬ (0x2000000 &&& s32k116Header.CMP_C0_CFR_MASK = s32k116Header.CMP_C0_CFR_MASK) ∧
      (0x2000000 &&& s32k116Header.CMP_C0_CFF_MASK = s32k116Header.CMP_C0_CFF_MASK) ∧
      redOn (afterFirstEvaluation s32k116Header idleDrivers resetRegs 1 0x2000000).regs = true ∧
      greenOn (afterFirstEvaluation s32k116Header idleDrivers resetRegs 1 0x2000000).regs
        = false :=
  ⟨idleDrivers_keepPortD, by decide, by decide,
    (afterFirstEvaluation_indicator s32k116Header idleDrivers resetRegs 1 0x2000000
      idleDrivers_keepPortD).2 (by decide) (by decide)⟩

end TRGMUX

/-! ## The calibration dialogue -/

namespace ADC_Cal

theorem step_ok (w adc : Nat) (c : Console) (rx : Nat) (h : c.ok) : (step w adc c rx).ok := by
  obtain ⟨hg, hout⟩ := h
  unfold step
  split
  · -- gain step
    unfold gainStep
    by_cases hv : rx % 2 ^ 16 ≤ 1023
    · simp only [hv, ge_iff_le, Nat.zero_le, decide_True, Bool.and_self, if_true]
      refine ⟨fun _ => hv, fun g o hm => ?_⟩
      simp [Console.emit] at hm
      exact hout g o hm
    · simp only [hv, ge_iff_le, Nat.zero_le, decide_True, decide_False, Bool.and_false]
      rename_i h1
      refine ⟨fun h2 => ?_, fun g o hm => ?_⟩
      · simp [Console.emit, h1] at h2
      · simp [Console.emit] at hm
        exact hout g o hm
  · split
    · rename_i h1 h2
      unfold offsetStep
      by_cases hv : rx % 2 ^ 16 ≤ 255
      · simp only [hv, ge_iff_le, Nat.zero_le, decide_True, Bool.and_self, if_true]
        refine ⟨fun h3 => ?_, fun g o hm => ?_⟩
        · simp [Console.emit] at h3
        · simp [Console.emit] at hm
          rcases hm with hm | ⟨rfl, rfl⟩
          · exact hout g o hm
          · exact ⟨hg h2, hv⟩
      · simp only [hv, ge_iff_le, Nat.zero_le, decide_True, decide_False, Bool.and_false]
        refine ⟨fun _ => hg h2, fun g o hm => ?_⟩
        simp [Console.emit] at hm
        exact hout g o hm
    · rename_i h1 h2
      have keep : ∀ c' : Console, c'.state ≠ 2 →
          (∀ g o, Call.ADC_calibration_init g o ∈ c'.out →
            Call.ADC_calibration_init g o ∈ c.out) → c'.ok :=
        fun c' hs hm => ⟨fun h3 => absurd h3 hs, fun g o hmem => hout g o (hm g o hmem)⟩
      by_cases hy : rx % 65536 = 121
      · apply keep
        · simp [answerStep, hy, Console.emit]
        · intro g o hm
          simpa [answerStep, hy, Console.emit] using hm
      · by_cases hn : rx % 65536 = 110
        · apply keep
          · simp [answerStep, hy, hn, Console.emit, h2]
          · intro g o hm
            simpa [answerStep, hy, hn, Console.emit] using hm
        · apply keep
          · simp [answerStep, hy, hn, Console.emit, h2]
          · intro g o hm
            simpa [answerStep, hy, hn, Console.emit] using hm

theorem foldl_ok (w adc : Nat) (rxs : List Nat) (c : Console) (h : c.ok) :
    (rxs.foldl (step w adc) c).ok := by
  induction rxs generalizing c with
  | nil => exact h
  | cons rx rest ih => exact ih _ (step_ok w adc c rx h)

theorem init_ok : Console.init.ok := by
  refine ⟨fun h => ?_, fun g o hm => ?_⟩
  · simp [Console.init] at h
  · simp [Console.init] at hm

/-- C10: at the gain step a received value (as stored in the 16-bit `gain`) advances the
dialogue to the offset step if and only if it is at most 1023; otherwise the state stays 1
and the gain is asked for again.  At the offset step a received value (as stored in the
16-bit `offset`) returns the state to 0 if and only if it is at most 255, and then
`ADC_calibration_init(gain, offset)` is called; otherwise the state stays 2, the gain is
kept, the offset is asked for again and nothing else is called.  On every sequence of
received values, `ADC_calibration_init` is only called with gain ≤ 1023 and offset ≤ 255. -/
theorem calibration_input_validation (w adc : Nat) :
    (∀ (c : Console) (rx : Nat), c.state = 1 →
      ((step w adc c rx).state = 2 ↔ rx % 2 ^ 16 ≤ 1023) ∧
      (step w adc c rx).gain = rx % 2 ^ 16 ∧
      (¬ rx % 2 ^ 16 ≤ 1023 →
        (step w adc c rx).state = 1 ∧
        (step w adc c rx).out = c.out ++
          [.LPUART0_transmit_string "\r\n",
            .LPUART0_transmit_string "Incorrect Gain Value. Try again.\r\n\r\n",
            .LPUART0_transmit_string "> "])) ∧
    (∀ (c : Console) (rx : Nat), c.state = 2 →
      ((step w adc c rx).state = 0 ↔ rx % 2 ^ 16 ≤ 255) ∧
      (rx % 2 ^ 16 ≤ 255 →
        ∃ rest, (step w adc c rx).out
          = c.out ++ Call.ADC_calibration_init c.gain (rx % 2 ^ 16) :: rest) ∧
      (¬ rx % 2 ^ 16 ≤ 255 →
        (step w adc c rx).state = 2 ∧ (step w adc c rx).gain = c.gain ∧
        (step w adc c rx).out = c.out ++
          [.LPUART0_transmit_string "\r\n",
            .LPUART0_transmit_string "Incorrect Offset Value. Try again.\r\n\r\n",
            .LPUART0_transmit_string "> "])) ∧
    (∀ (rxs : List Nat) (g o : Nat),
      Call.ADC_calibration_init g o ∈ (dialogue w adc rxs).out → g ≤ 1023 ∧ o ≤ 255) := by
  refine ⟨fun c rx h1 => ?_, fun c rx h2 => ?_, fun rxs g o hm => ?_⟩
  · by_cases hv : rx % 65536 ≤ 1023
    · simp [step, h1, gainStep, hv, Console.emit]
    · simp [step, h1, gainStep, hv, Console.emit]
  · by_cases hv : rx % 65536 ≤ 255
    · simp [step, h2, offsetStep, hv, Console.emit]
    · simp [step, h2, offsetStep, hv, Console.emit]
  · exact (foldl_ok w adc rxs Console.init init_ok).2 g o hm


/-- Witness for `calibration_input_validation`: answer y, gain 2000 (rejected), gain 512,
offset 300 (rejected), offset 100. -/
theorem calibration_input_validation_witness :
    Call.ADC_calibration_init 512 100 ∈ (dialogue 22 1234 [121, 2000, 512, 300, 100]).out ∧
      512 ≤ 1023 ∧ 100 ≤ 255 :=
  ⟨by decide, (calibration_input_validation 22 1234).2.2 [121, 2000, 512, 300, 100] 512 100
    (by decide)⟩

end ADC_Cal

/-! ## The timer handler frame and the interrupt enable -/

theorem testBit_15 (i : Nat) : Nat.testBit 15 i = decide (i < 4) := by
  rw [show (15 : Nat) = 2 ^ 4 - 1 by norm_num, Nat.testBit_two_pow_sub_one]

theorem and_31_eq_mod (x : Nat) : x &&& 0x1F = x % 32 := by
  rw [show (0x1F : Nat) = 2 ^ 5 - 1 by norm_num, Nat.and_pow_two_sub_one_eq_mod]

theorem shiftRight_5_eq_div (x : Nat) : x >>> 5 = x / 32 := by
  rw [Nat.shiftRight_eq_div_pow]

theorem two_pow_mod32_lt (x : Nat) : 2 ^ (x % 32) < 2 ^ 32 :=
  Nat.pow_lt_pow_right (by norm_num) (Nat.mod_lt x (by norm_num))

namespace TRGMUX

/-- Entered with TIF0 set, `LPIT0_IRQHandler` leaves every one of the four timeout flags
clear: the word written back by `|=` carries a 1 for each flag that was set. -/
theorem LPIT0_IRQHandler_clears_all_flags (d : DeviceHeader) (m : Machine)
    (h : m.regs .LPIT0_MSR &&& LPIT_MSR_TIF0_MASK = LPIT_MSR_TIF0_MASK) (i : Nat) (hi : i < 4) :
    ((LPIT0_IRQHandler d m).regs .LPIT0_MSR).testBit i = false := by
  have e : (LPIT0_IRQHandler d m).regs .LPIT0_MSR
      = clearBits (m.regs .LPIT0_MSR) ((m.regs .LPIT0_MSR ||| 1) % 2 ^ 32 &&& 15) := by
    simp only [LPIT0_IRQHandler, hwRead, h, if_true]
    rfl
  have hi32 : i < 32 := by omega
  rw [e, testBit_clearBits, Nat.testBit_and, Nat.testBit_mod_two_pow, Nat.testBit_or, testBit_15]
  cases (m.regs .LPIT0_MSR).testBit i <;> simp [hi, hi32]

/-- C11 fails on the code: entered with all four timeout flags set (`MSR` = 0xF),
`LPIT0_IRQHandler` returns with `MSR` = 0, so the flags of channels 1, 2 and 3 are cleared
together with TIF0.  The statement `LPIT0->MSR |= LPIT_MSR_TIF0_MASK` writes back the word
it has read, in which TIF1..TIF3 are 1 as well, and a written 1 clears the flag. -/
theorem LPIT0_IRQHandler_clears_other_flags :
    (setReg resetRegs .LPIT0_MSR 0xF .LPIT0_MSR &&& LPIT_MSR_TIF0_MASK = LPIT_MSR_TIF0_MASK) ∧
      (setReg resetRegs .LPIT0_MSR 0xF .LPIT0_MSR).testBit 1 = true ∧
      (setReg resetRegs .LPIT0_MSR 0xF .LPIT0_MSR).testBit 2 = true ∧
      (setReg resetRegs .LPIT0_MSR 0xF .LPIT0_MSR).testBit 3 = true ∧
      (LPIT0_IRQHandler s32k116Header
        (Machine.start (setReg resetRegs .LPIT0_MSR 0xF))).regs .LPIT0_MSR = 0 := by
  decide

/-- C12: for every vector number in 0..255, `Enable_Interrupt` writes the word
2^(vector_number mod 32) to `ISER[vector_number div 32]` and then to
`ICPR[vector_number div 32]`; the word is below 2^32 and has exactly the bit
vector_number mod 32 set; the word index is 0 for vector numbers below 32 and at least 1 from
32 on; the `Enable_Interrupt` of the ADC_Cal project does the same as that of the TRGMUX
project. -/
theorem Enable_Interrupt_writes (d : DeviceHeader) (vector_number : Nat) (m : Machine)
    (h : vector_number < 256) :
    (Enable_Interrupt d vector_number m).trace = m.trace ++
        [Event.write (.NVIC_ISER (vector_number / 32)) (2 ^ (vector_number % 32)),
          Event.write (.NVIC_ICPR (vector_number / 32)) (2 ^ (vector_number % 32))] ∧
      2 ^ (vector_number % 32) < 2 ^ 32 ∧
      (∀ i, (2 ^ (vector_number % 32)).testBit i = decide (i = vector_number % 32)) ∧
      (vector_number < 32 → vector_number / 32 = 0) ∧
      (32 ≤ vector_number → 1 ≤ vector_number / 32) ∧
      ADC_Cal.Enable_Interrupt d vector_number m = Enable_Interrupt d vector_number m := by
  have hv : vector_number % 256 = vector_number := Nat.mod_eq_of_lt h
  have hlt : 2 ^ (vector_number % 32) < 4294967296 := two_pow_mod32_lt vector_number
  refine ⟨?_, two_pow_mod32_lt _, fun i => ?_, fun h32 => Nat.div_eq_of_lt h32,
    fun h32 => ?_, rfl⟩
  · simp only [Enable_Interrupt, regWrite_trace, List.append_assoc, List.singleton_append]
    norm_num [hv, and_31_eq_mod, shiftRight_5_eq_div, Nat.one_shiftLeft,
      Nat.mod_eq_of_lt hlt]
  · rw [Nat.testBit_two_pow]
    simp [eq_comm]
  · omega

/-- Witness for `Enable_Interrupt_writes`: vector number 29 (CMP0) from reset; the word
0x20000000 goes to `ISER[0]` and `ICPR[0]`. -/
theorem Enable_Interrupt_writes_witness :
    29 < 256 ∧
      (Enable_Interrupt s32k116Header 29 (Machine.start resetRegs)).trace
        = (Machine.start resetRegs).trace ++
          [Event.write (.NVIC_ISER (29 / 32)) (2 ^ (29 % 32)),
            Event.write (.NVIC_ICPR (29 / 32)) (2 ^ (29 % 32))] ∧
      ADC_Cal.Enable_Interrupt s32k116Header 29 (Machine.start resetRegs)
        = Enable_Interrupt s32k116Header 29 (Machine.start resetRegs) :=
  ⟨by decide,
    (Enable_Interrupt_writes s32k116Header 29 (Machine.start resetRegs) (by decide)).1,
    (Enable_Interrupt_writes s32k116Header 29 (Machine.start resetRegs)
      (by decide)).2.2.2.2.2⟩

end TRGMUX

/-! ## The transmit gate over a run of `main` -/

namespace TRGMUX

/-- Every iteration event adds exactly one outcome to the list of attempts, and nothing else
changes that list. -/
theorem foldl_step_attempts (regs : Regs) (others : Nat → Bool) (events : List LoopEvent)
    (s : GateRun) :
    ∃ extra, (events.foldl (GateRun.step regs others) s).attempts = s.attempts ++ extra ∧
      extra.length = events.count LoopEvent.iteration := by
  induction events generalizing s with
  | nil => exact ⟨[], by simp⟩
  | cons ev rest ih =>
    obtain ⟨extra, h, hl⟩ := ih (GateRun.step regs others s ev)
    cases ev with
    | timeout =>
      refine ⟨extra, ?_, ?_⟩
      · rw [List.foldl_cons, h]
        simp only [GateRun.step]
        split <;> rfl
      · simpa using hl
    | sample input =>
      refine ⟨extra, ?_, ?_⟩
      · rw [List.foldl_cons, h]
        rfl
      · simpa using hl
    | iteration =>
      refine ⟨main_loop [gateOpen regs s.cmp others] ++ extra, ?_, ?_⟩
      · rw [List.foldl_cons, h]
        simp [GateRun.step]
      · simp [main_loop, hl]

/-- After the setup of `main` from reset, `TRGMUX[LPUART0]` selects source 14, CMP0_OUT. -/
theorem main_setup_source_LPUART0 (d : DeviceHeader) (x : Drivers) (hx : x.keepTrgmux) :
    trgmuxSource ((main_setup d x (Machine.start resetRegs)).regs .TRGMUX_LPUART0) = 14 := by
  obtain ⟨rL, -⟩ := main_setup_regs d x resetRegs hx (by decide) (by decide) (by decide)
    (by decide)
  rw [rL]
  decide

/-- C3: in a run of `main` from reset (drivers leaving the TRGMUX registers alone), under
any sequence of timer expiries, comparator evaluations and loop iterations, a transmission
attempt of the main loop succeeds and puts the status line
"LPUART0_Tx triggered by CMP0_OUT\r\n" on the line if and only if the output level of the
comparator, as its last evaluation left it, is true; when that level is false the attempt
returns `GateClosed` and transmits nothing; every iteration yields exactly one outcome; and
an evaluation of the armed comparator sets the level to `input > threshold`. -/
theorem main_gate_fidelity (d : DeviceHeader) (x : Drivers) (hx : x.keepTrgmux)
    (others : Nat → Bool) (cmp0 : ComparatorState) (pre post : List LoopEvent) :
    ((mainRun d x others cmp0 (pre ++ LoopEvent.iteration :: post)).attempts[
          (mainRun d x others cmp0 pre).attempts.length]?
        = some (TransmitOutcome.success, some "LPUART0_Tx triggered by CMP0_OUT\r\n") ↔
      (mainRun d x others cmp0 pre).cmp.output_level = true) ∧
    ((mainRun d x others cmp0 pre).cmp.output_level = false →
      (mainRun d x others cmp0 (pre ++ LoopEvent.iteration :: post)).attempts[
          (mainRun d x others cmp0 pre).attempts.length]?
        = some (TransmitOutcome.GateClosed, none)) ∧
    (mainRun d x others cmp0 (pre ++ LoopEvent.iteration :: post)).attempts.length
      = (pre ++ LoopEvent.iteration :: post).count LoopEvent.iteration ∧
    (∀ input, (mainRun d x others cmp0 (pre ++ [LoopEvent.sample input])).cmp.output_level
      = if (mainRun d x others cmp0 pre).cmp.sample_enabled then
          decide (input > (mainRun d x others cmp0 pre).cmp.threshold)
        else (mainRun d x others cmp0 pre).cmp.output_level) := by
  have hsrc := main_setup_source_LPUART0 d x hx
  obtain ⟨extra, hex, -⟩ := foldl_step_attempts
    (main_setup d x (Machine.start resetRegs)).regs others post
    (GateRun.step (main_setup d x (Machine.start resetRegs)).regs others
      (mainRun d x others cmp0 pre) LoopEvent.iteration)
  have hrun : (mainRun d x others cmp0 (pre ++ LoopEvent.iteration :: post)).attempts
      = (mainRun d x others cmp0 pre).attempts ++
        (LPUART0_transmit_string (mainRun d x others cmp0 pre).cmp.output_level statusLine
          :: extra) := by
    have : mainRun d x others cmp0 (pre ++ LoopEvent.iteration :: post)
        = post.foldl (GateRun.step (main_setup d x (Machine.start resetRegs)).regs others)
          (GateRun.step (main_setup d x (Machine.start resetRegs)).regs others
            (mainRun d x others cmp0 pre) LoopEvent.iteration) := by
      simp [mainRun, List.foldl_append]
    rw [this, hex]
    simp [GateRun.step, main_loop, gateOpen, hsrc]
  obtain ⟨all, hall, hcount⟩ := foldl_step_attempts
    (main_setup d x (Machine.start resetRegs)).regs others
    (pre ++ LoopEvent.iteration :: post) ⟨cmp0, []⟩
  have hlen : (mainRun d x others cmp0 (pre ++ LoopEvent.iteration :: post)).attempts.length
      = (pre ++ LoopEvent.iteration :: post).count LoopEvent.iteration := by
    rw [mainRun, hall, List.nil_append, hcount]
  refine ⟨?_, ?_, hlen, ?_⟩
  · rw [hrun, List.getElem?_append_right (le_refl _)]
    cases h : (mainRun d x others cmp0 pre).cmp.output_level <;>
      simp [LPUART0_transmit_string, statusLine]
  · intro h
    rw [hrun, List.getElem?_append_right (le_refl _), h]
    simp [LPUART0_transmit_string]
  · intro input
    simp only [mainRun, List.foldl_append, List.foldl_cons, List.foldl_nil, GateRun.step,
      ComparatorState.evaluate]
    split <;> rfl

/-- Witness for `main_gate_fidelity`: an attempt made after the timer has armed the
comparator and an input above the threshold was evaluated succeeds. -/
theorem main_gate_fidelity_witness :
    idleDrivers.keepTrgmux ∧
      (mainRun s32k116Header idleDrivers (fun _ => false) ⟨127, false, false, false, false⟩
        [LoopEvent.iteration, LoopEvent.timeout, LoopEvent.sample 200]).cmp.output_level
        = true ∧
      (mainRun s32k116Header idleDrivers (fun _ => false) ⟨127, false, false, false, false⟩
          ([LoopEvent.iteration, LoopEvent.timeout, LoopEvent.sample 200] ++
            LoopEvent.iteration :: [LoopEvent.sample 5, LoopEvent.iteration])).attempts[
          (mainRun s32k116Header idleDrivers (fun _ => false)
            ⟨127, false, false, false, false⟩
            [LoopEvent.iteration, LoopEvent.timeout, LoopEvent.sample 200]).attempts.length]?
        = some (TransmitOutcome.success, some "LPUART0_Tx triggered by CMP0_OUT\r\n") :=
  ⟨idleDrivers_keepTrgmux, by decide,
    (main_gate_fidelity s32k116Header idleDrivers idleDrivers_keepTrgmux (fun _ => false)
      ⟨127, false, false, false, false⟩
      [LoopEvent.iteration, LoopEvent.timeout, LoopEvent.sample 200]
      [LoopEvent.sample 5, LoopEvent.iteration]).1.mpr (by decide)⟩

end TRGMUX

end S32K116
